import Mathlib

/-!
Verification development for the AI-Patient-Management repository.

The embedding models the assistant query router of
`src/project/src/components/AIChat.tsx` (`handleLocalQuery`,
`getPatientContext`, `handleSend`), the external-assistant adapter of
`src/project/src/lib/...` (`sendMessageToGemini`, `synthesizePatientSummary`)
and the milestone toggle of the recovery-milestones component
(`toggleMilestone`).

Modelling conventions:
* The storage collaborator (supabase) is a record of in-memory tables plus a
  per-table read-failure flag; a `select` on a failing table yields the
  `(data: null, error: e)` shape, which the source either converts to an
  empty list (`data || []`), to a thrown-and-caught error, or to a
  returned `null`.
* JavaScript regexes are hand-translated into character-list scanners with
  the same match semantics (leftmost match, alternation order, lazy/greedy
  quantifiers) for the inputs the router receives (single-line chat text).
* Dates are structured `year/month/day` values (the source parses ISO date
  strings); `toLocaleDateString()` is the en-US "M/D/YYYY" rendering and
  the time-of-day part of `toLocaleString()` is not modelled.
* JavaScript truthiness on optional strings/numbers is modelled explicitly:
  `none`, `some ""` and `some 0` are falsy.
-/

namespace AIPMS

/-- Whitespace class of the JavaScript regex token `\s`. -/
def wsChar (c : Char) : Bool := c.isWhitespace

/-- Word-character class of the JavaScript regex token `\w` (for `\b`). -/
def wordChar (c : Char) : Bool := c.isAlphanum || c = '_'

/-- Character class `[a-z\s]` as it behaves on a lowercased message. -/
def nameChar (c : Char) : Bool := c.isLower || wsChar c

/-- Character class `[a-z\s]` under the `i` flag, on raw message text. -/
def nameCharCI (c : Char) : Bool := c.isAlpha || wsChar c

/-- Character class `[a-z ]` under the `i` flag (letters or a plain space). -/
def azSpaceCharCI (c : Char) : Bool := c.isAlpha || c = ' '

/-- Boolean prefix test on character lists. -/
def hasPre : List Char → List Char → Bool
  | [], _ => true
  | _ :: _, [] => false
  | a :: as, b :: bs => a = b && hasPre as bs

/-- Case-insensitive prefix test: `pat` is lowercase, `s` is raw text. -/
def hasPreCI : List Char → List Char → Bool
  | [], _ => true
  | _ :: _, [] => false
  | a :: as, b :: bs => a = b.toLower && hasPreCI as bs

/-- Boolean substring scan: does `w` occur inside `s`? -/
def subAux (w : List Char) : List Char → Bool
  | [] => hasPre w []
  | c :: rest => hasPre w (c :: rest) || subAux w rest

/-- JavaScript `s.includes(pat)` (also an `i`-flagged substring regex once
both sides are lowercased). -/
def strContains (s pat : String) : Bool := subAux pat.data s.data

/-- Any of the given literals occurs as a substring (regex alternation
without anchors or boundaries). -/
def containsAnySub (s : String) (pats : List String) : Bool :=
  pats.any (fun p => strContains s p)

/-- Match of `w` at the head of `s` with a word boundary after it. -/
def wbAt (w s : List Char) : Bool :=
  hasPre w s &&
    (match s.drop w.length with
     | [] => true
     | c :: _ => !wordChar c)

/-- Left word boundary: either the start of the string or a preceding
non-word character. -/
def boundaryOk : Option Char → Bool
  | none => true
  | some c => !wordChar c

/-- Scan for `\bw\b` keeping track of the previous character for the left
boundary. -/
def wbScan (w : List Char) (prev : Option Char) : List Char → Bool
  | [] => boundaryOk prev && wbAt w []
  | c :: rest => (boundaryOk prev && wbAt w (c :: rest)) || wbScan w (some c) rest

/-- Word-boundary containment: the regex `\bw\b` finds `w` inside `s`. -/
def containsWB (s w : String) : Bool := wbScan w.data none s.data

/-- Any of the alternatives matches with word boundaries (`\b(a|b|…)\b`). -/
def containsAnyWB (s : String) (pats : List String) : Bool :=
  pats.any (fun p => containsWB s p)

/-- JavaScript `String.prototype.trim` on a character list. -/
def trimChars (l : List Char) : List Char :=
  ((l.dropWhile wsChar).reverse.dropWhile wsChar).reverse

/-- JavaScript `message.trim()`. -/
def strTrim (s : String) : String := ⟨trimChars s.data⟩

/-- JavaScript `message.toLowerCase()` (ASCII data, as in the router). -/
def lowerStr (s : String) : String := ⟨s.data.map Char.toLower⟩

/-- The normalized message `m = message.toLowerCase().trim()` built at the
top of `handleLocalQuery`. -/
def normMsg (s : String) : String := strTrim (lowerStr s)

/-- JavaScript `x || d` for an optional string (null/undefined and the empty
string are falsy). -/
def jsOr : Option String → String → String
  | some s, d => if s = "" then d else s
  | none, d => d

/-- Truthiness of an optional string. -/
def jsTruthyS : Option String → Bool
  | some s => s ≠ ""
  | none => false

/-- Truthiness of an optional number (null/undefined and 0 are falsy). -/
def jsTruthyN : Option Nat → Bool
  | some n => n ≠ 0
  | none => false

/-- JavaScript `Array.prototype.join(sep)`. -/
def strJoin (sep : String) : List String → String
  | [] => ""
  | [x] => x
  | x :: xs => x ++ sep ++ strJoin sep xs

/-- Basic lemmas about the scanners, used to relate them to `List.IsInfix`. -/
theorem hasPre_iff_isPrefix (w s : List Char) : hasPre w s = true ↔ w <+: s := by
  induction w generalizing s with
  | nil => simp [hasPre]
  | cons a as ih =>
    cases s with
    | nil => simp [hasPre]
    | cons b bs =>
      simp only [hasPre, Bool.and_eq_true, decide_eq_true_eq, List.cons_prefix_cons]
      exact and_congr (by constructor <;> (intro h; simp_all)) (ih bs)

theorem subAux_iff_infixOf (w s : List Char) : subAux w s = true ↔ w <:+: s := by
  induction s with
  | nil =>
    simp [subAux, hasPre_iff_isPrefix]
  | cons c rest ih =>
    simp only [subAux, Bool.or_eq_true, hasPre_iff_isPrefix, ih,
      List.infix_cons_iff]

/-- Word-boundary containment implies plain substring containment. -/
theorem containsWB_sub {s w : String} (h : containsWB s w = true) :
    strContains s w = true := by
  unfold containsWB at h
  unfold strContains
  suffices H : ∀ (l : List Char) (prev : Option Char),
      wbScan w.data prev l = true → subAux w.data l = true from H s.data none h
  intro l
  induction l with
  | nil =>
    intro prev hp
    simp only [wbScan, wbAt, Bool.and_eq_true] at hp
    simpa [subAux] using hp.2.1
  | cons c rest ih =>
    intro prev hp
    simp only [wbScan, wbAt, Bool.or_eq_true, Bool.and_eq_true] at hp
    rcases hp with ⟨_, hpre, _⟩ | hrec
    · simp [subAux, hpre]
    · simp [subAux, ih (some c) hrec]

/-! ### Hand-translated JavaScript regex matchers

Each matcher corresponds to one regex of `handleLocalQuery`; they operate on
lowercased text (the sources either lowercase the message first or use the
`i` flag, which is the same thing for these ASCII patterns). -/

/-- PII keyword alternatives of `/\b(address|phone|email|contact|contact
details|contact info)\b/i` (the two-word alternatives are subsumed by
`contact`). -/
def piiKeywords : List String := ["address", "phone", "email", "contact"]

/-- Rule-1 trigger: the message contains a PII keyword. -/
def piiTest (m : String) : Bool := containsAnyWB m piiKeywords

/-- Match of `\s+(?:address|phone|email|contact)` at the head of `t`. -/
def wsThenPiiKw (t : List Char) : Bool :=
  match t with
  | [] => false
  | c :: rest =>
    wsChar c && piiKeywords.any (fun k => hasPre k.data (List.dropWhile wsChar (c :: rest)))

/-- Lazy capture `([a-z\s]+?)` followed by `\s+` and a PII keyword: returns
the shortest capture (regex laziness) whose remainder matches. -/
def piiLazyCap (acc : List Char) : List Char → Option (List Char)
  | [] => none
  | c :: rest =>
    if nameChar c then
      let acc2 := c :: acc
      if wsThenPiiKw rest then some acc2.reverse else piiLazyCap acc2 rest
    else none

/-- Try `(?:patient|find|show)\s+([a-z\s]+?)\s+(?:address|phone|email|contact)`
anchored at the current position (alternatives in regex order; the greedy
`\s+` after the keyword is equivalent to consuming one whitespace character,
since the lazy capture class also accepts whitespace). -/
def piiNameAt (s : List Char) : Option (List Char) :=
  (["patient", "find", "show"].map (fun kw =>
      if hasPre kw.data s then
        match s.drop kw.data.length with
        | [] => none
        | c :: r2 => if wsChar c then piiLazyCap [] r2 else none
      else none)).foldl (fun a b => a <|> b) none

/-- Leftmost scan for the PII name-extraction regex. -/
def piiNameScan : List Char → Option (List Char)
  | [] => none
  | c :: rest =>
    match piiNameAt (c :: rest) with
    | some cap => some cap
    | none => piiNameScan rest

/-- Name extracted by rule 1 from `m.match(/(?:patient|find|show)\s+
([a-z\s]+?)\s+(?:address|phone|email|contact)/i)`, already `.trim()`-ed as in
the source. -/
def extractPIIName (m : String) : Option String :=
  (piiNameScan m.data).map (fun l => ⟨trimChars l⟩)

/-- Alternatives of the rule-4 regex `(?:i want patient|show patient|show
details of|details of|details)`, in regex order. -/
def detailsAlts : List String :=
  ["i want patient", "show patient", "show details of", "details of", "details"]

/-- First alternative (in regex order) that is a prefix of `s`. -/
def findAltPre (alts : List String) (s : List Char) : Option String :=
  alts.find? (fun a => hasPre a.data s)

/-- Capture `([a-z ]+)` (with the `i` flag) after `\s+` for rule 4, anchored
at the position right after a matched alternative; the message keeps its
original casing, as the source's capture does. The greedy `\s+` backtracks
into the capture only when the character after the whitespace run is outside
the class and the run still holds a space beyond its first character; the
capture is then whitespace only and later scrubs/trims to the empty name. -/
def detailsCapAfter (rem : List Char) : Option (List Char) :=
  match rem with
  | [] => none
  | c :: _ =>
    if wsChar c then
      let run := rem.takeWhile wsChar
      let rest1 := rem.drop run.length
      let cap1 := rest1.takeWhile azSpaceCharCI
      if cap1 ≠ [] then some cap1
      else if (run.drop 1).contains ' ' then some [' ']
      else none
    else none

/-- Alternation with backtracking at one position: the first alternative (in
regex order) that matches here and whose capture succeeds. -/
def detailsAltsAt (s : List Char) : Option (List Char) :=
  (detailsAlts.map (fun alt =>
      if hasPreCI alt.data s then detailsCapAfter (s.drop alt.data.length)
      else none)).foldl (fun a b => a <|> b) none

/-- Leftmost scan for the rule-4 regex on the raw message. -/
def detailsScan : List Char → Option (List Char)
  | [] => none
  | c :: rest =>
    match detailsAltsAt (c :: rest) with
    | some cap => some cap
    | none => detailsScan rest

/-- Rule-4 raw capture (before the scrub of filler words), in original
casing. -/
def detailsNameRaw (msg : String) : Option String :=
  (detailsScan msg.data).map (fun l => ⟨l⟩)

/-- Filler words removed from the rule-4 capture by
`.replace(/details|info|information|record|records|all|full|about|of|for/g, '')`,
in regex-alternation order. -/
def scrubAlts : List String :=
  ["details", "info", "information", "record", "records", "all", "full",
   "about", "of", "for"]

/-- One pass of the global replace: at each position, remove the first
alternative that matches there, otherwise keep the character (fueled by the
input length; every removal consumes at least one character). -/
def scrubFuel : Nat → List Char → List Char
  | 0, s => s
  | _ + 1, [] => []
  | fuel + 1, c :: rest =>
    match findAltPre scrubAlts (c :: rest) with
    | some alt => scrubFuel fuel ((c :: rest).drop alt.data.length)
    | none => c :: scrubFuel fuel rest

/-- Rule-4 name: capture with filler words scrubbed, then trimmed. -/
def scrubName (cap : String) : String :=
  ⟨trimChars (scrubFuel cap.data.length cap.data)⟩

/-- Rule-4 match result: the cleaned name (possibly empty, in which case the
source returns `null`). -/
def detailsNameMatch (msg : String) : Option String :=
  (detailsNameRaw msg).map scrubName

/-- Action alternatives of the rule-5 regex, in regex order ("post-?op"
contributes both spellings). -/
def actionAlts : List String :=
  ["surgery", "surgeries", "postop", "post-op", "post op", "postoperative",
   "post operative", "recovery", "progress", "details", "age", "how old",
   "meds", "medications", "vitals", "vital signs", "contact", "phone",
   "email", "address"]

/-- Age alternatives of the rule-9 regex. -/
def ageAlts : List String :=
  ["age", "how old", "what is the age", "what's the age"]

/-- Does the tail (after the whitespace separating name and action) equal one
of the end-anchored alternatives, case-insensitively? Alternatives start with
a non-whitespace character, so the greedy `\s+` determinizes to `dropWhile`.
Returns the matched alternative lowercased, as
`nameActionMatch[2].toLowerCase()` produces it. -/
def actionTailMatch (alts : List String) (rest : List Char) : Option String :=
  match rest with
  | [] => none
  | c :: _ =>
    if wsChar c then
      let act := (rest.dropWhile wsChar).map Char.toLower
      alts.find? (fun a => a.data = act)
    else none

/-- Lazy scan for `^([a-z\s]+?)\s+(alts)$` with the `i` flag: the shortest
nonempty name (captured in its original casing) whose remainder is
whitespace and an end-anchored alternative. -/
def nameSuffixScan (alts : List String) (acc : List Char) : List Char → Option (String × String)
  | [] => none
  | c :: rest =>
    if nameCharCI c then
      let acc2 := c :: acc
      match actionTailMatch alts rest with
      | some a => some (⟨acc2.reverse⟩, a)
      | none => nameSuffixScan alts acc2 rest
    else none

/-- Greedy backtracking over the whitespace after the optional `patient`
prefix: try consuming `k` whitespace characters, largest first. -/
def tryWsSplits (alts : List String) (rem : List Char) : Nat → Option (String × String)
  | 0 => none
  | k + 1 =>
    match nameSuffixScan alts [] (rem.drop (k + 1)) with
    | some r => some r
    | none => tryWsSplits alts rem k

/-- Matcher for `^(?:patient\s+)?([a-z\s]+?)\s+(alts)$` with the `i` flag on
the raw message. Returns the captured name (original casing, untrimmed) and
the matched action alternative (lowercased). -/
def namePlusSuffixMatch (alts : List String) (msg : String) : Option (String × String) :=
  let raw := msg.data
  let attempt1 : Option (String × String) :=
    if hasPreCI "patient".data raw then
      let rem := raw.drop 7
      tryWsSplits alts rem ((rem.takeWhile wsChar).length)
    else none
  match attempt1 with
  | some r => some r
  | none => nameSuffixScan alts [] raw

/-- Rule-5 matcher (`nameActionMatch`): captured name (untrimmed, as in the
source, which trims it afterwards) and action. -/
def nameActionMatch (msg : String) : Option (String × String) :=
  namePlusSuffixMatch actionAlts msg

/-- Rule-9 matcher (`nameAgeMatch`): captured name only. -/
def nameAgeMatch (msg : String) : Option String :=
  (namePlusSuffixMatch ageAlts msg).map (fun r => r.1)

/-- Rule-3 trigger `/^how many patients$|how many patients in total|number of
patients|count of patients/i`: only the first alternative is anchored. -/
def countTest (m : String) : Bool :=
  m == "how many patients" ||
    containsAnySub m
      ["how many patients in total", "number of patients", "count of patients"]

/-- Keyword alternatives of the rule-8 regex `^(teach me about|educate me
about|what is|explain)\s+(.+)` (prefix-disjoint, so order is immaterial). -/
def teachKws : List String := ["teach me about", "educate me about", "what is", "explain"]

/-- Rule-8 matcher on the raw message: returns the topic
(`parts[1].toLowerCase().trim()`). When everything after the keyword is
whitespace the regex still matches (the greedy `\s+` gives one whitespace
character back to `(.+)`) and the topic trims to the empty string; the
source then falls through to the next rule. A `\n` ends the `(.+)` capture. -/
def teachCapture (msg : String) : Option String :=
  let lm := (lowerStr msg).data
  (teachKws.map (fun kw =>
      if hasPre kw.data lm then
        match lm.drop kw.data.length with
        | [] => none
        | c :: r2 =>
          if wsChar c then
            let t := List.dropWhile wsChar (c :: r2)
            if t ≠ [] then some (⟨trimChars (t.takeWhile (fun d => d ≠ '\n'))⟩ : String)
            else if r2 ≠ [] then some "" else none
          else none
      else none)).foldl (fun a b => a <|> b) none

/-- Attempt of the rule-10 regex `(?:find|search|show)?\s*patient\s+(.+)` at
one position of `m` (which is lowercased and trimmed, so the capture cannot
be whitespace-only). -/
def searchAt (s : List Char) : Option (List Char) :=
  let afterPatient : List Char → Option (List Char) := fun t =>
    if hasPre "patient".data t then
      match t.drop 7 with
      | [] => none
      | c :: r2 =>
        if wsChar c then
          let rest := List.dropWhile wsChar (c :: r2)
          if rest ≠ [] then some (rest.takeWhile (fun d => d ≠ '\n')) else none
        else none
    else none
  (( ["find", "search", "show"].map (fun kw =>
      if hasPre kw.data s then afterPatient (List.dropWhile wsChar (s.drop kw.data.length))
      else none)).foldl (fun a b => a <|> b) none) <|> afterPatient s

/-- Leftmost scan for the rule-10 regex. -/
def searchScan : List Char → Option (List Char)
  | [] => none
  | c :: rest =>
    match searchAt (c :: rest) with
    | some cap => some cap
    | none => searchScan rest

/-- Rule-10 matcher (`searchMatch`) on the normalized message, with the
source's `.trim()` applied to the capture. -/
def searchPatientName (m : String) : Option String :=
  (searchScan m.data).map (fun l => ⟨trimChars l⟩)

/-- Rule-6 department detection `m.match(/\b(cardiology|oncology|surgery)\b/)`:
leftmost word-boundary occurrence. -/
def deptAt (s : List Char) (prev : Option Char) : Option String :=
  (["cardiology", "oncology", "surgery"].map (fun d =>
      if boundaryOk prev && wbAt d.data s then some d else none)).foldl
    (fun a b => a <|> b) none

/-- Scan for the department word. -/
def deptScan (prev : Option Char) : List Char → Option String
  | [] => none
  | c :: rest =>
    match deptAt (c :: rest) prev with
    | some d => some d
    | none => deptScan (some c) rest

/-- Rule-6 matched department, if any. -/
def deptMatch (m : String) : Option String := deptScan none m.data

/-- Rule-6 second condition `/patient|patients|details|list/i`. -/
def deptListTest (m : String) : Bool :=
  containsAnySub m ["patient", "patients", "details", "list"]

/-- Rule-7 trigger `/\b(age|how old|blood group|blood type|contact|phone|
email|address)\b/i` (multi-word alternatives carry their boundaries at the
outer edges). -/
def singleFieldWords : List String :=
  ["age", "how old", "blood group", "blood type", "contact", "phone",
   "email", "address"]

def singleFieldTest (m : String) : Bool := containsAnyWB m singleFieldWords

/-- Rule-11 sub-triggers (plain substring alternations on `m`). -/
def allInfoTest (m : String) : Bool :=
  containsAnySub m
    ["i want patient details", "show all patient info", "show all details",
     "show patient info", "show patient details", "all info of patient",
     "all details of patient"]

def conditionTest (m : String) : Bool :=
  containsAnySub m
    ["what condition", "what disease", "what diagnosis",
     "tell me about the condition", "tell me about the disease",
     "tell me about their diagnosis", "explain their condition",
     "explain their disease", "explain their diagnosis"]

def surgeryTest (m : String) : Bool :=
  containsAnySub m ["surgery", "surgeries", "bypass", "operation", "procedure", "op"]

def vitalsTest (m : String) : Bool :=
  containsAnySub m
    ["vital", "vitals", "blood pressure", "heart rate", "temperature",
     "oxygen", "spo2", "oxygen saturation", "pain", "mobility", "wound"]

def medsTest (m : String) : Bool :=
  containsAnySub m ["medicat", "meds", "medications", "drugs", "prescription"]

def milestoneTest (m : String) : Bool :=
  containsAnySub m
    ["milestone", "milestones", "progress", "recovery progress", "recovered"]

/-! ### Data model (`src/project/src/lib/supabase.ts` row types)

Optional (nullable) columns are `Option`s; `created_at` timestamps and
dates are structured values; numeric JSON fields are naturals (no claim
depends on fractional values). -/

/-- Calendar date, as parsed from an ISO date string by `new Date(...)`. -/
structure SimpleDate where
  year : Nat
  month : Nat
  day : Nat
deriving DecidableEq, Repr

/-- en-US `Date.prototype.toLocaleDateString()`. -/
def dateStr (d : SimpleDate) : String :=
  toString d.month ++ "/" ++ toString d.day ++ "/" ++ toString d.year

/-- `Date.prototype.toLocaleString()` with the time-of-day part of the
rendering not modelled (no claim inspects it). -/
def dateTimeStr (d : SimpleDate) : String := dateStr d

/-- Sort key for ordering by date (later dates are larger). -/
def dateKey : Option SimpleDate → Nat
  | none => 0
  | some d => d.year * 10000 + d.month * 100 + d.day

structure Patient where
  id : String
  full_name : String
  date_of_birth : Option SimpleDate
  gender : Option String
  blood_type : Option String
  phone : Option String
  email : Option String
  address : Option String
  emergency_contact_name : Option String
  emergency_contact_phone : Option String
  department : String
  admission_date : Option SimpleDate
  status : Option String
  /-- Read by the rule-10 formatter (`p.latest_diagnosis`); not a column of
  the `patients` table, hence `undefined` (`none`) on real rows. -/
  latest_diagnosis : Option String
  created_at : Nat
deriving DecidableEq, Repr

structure MedicalRecord where
  id : String
  patient_id : String
  diagnosis : String
  treatment_plan : Option String
  medications : Option String
  /-- Read by two formatters (`rec.current_medications`); not a column of
  the `medical_records` table, hence `undefined` (`none`) on real rows. -/
  current_medications : Option String
  allergies : Option String
  medical_history : Option String
  created_at : Nat
deriving DecidableEq, Repr

structure Surgery where
  id : String
  patient_id : String
  surgery_type : String
  surgery_date : Option SimpleDate
  surgeon_name : Option String
  duration_minutes : Option Nat
  notes : Option String
  created_at : Nat
deriving DecidableEq, Repr

structure VitalSigns where
  blood_pressure : Option String
  heart_rate : Option Nat
  temperature : Option Nat
  oxygen_saturation : Option Nat
deriving DecidableEq, Repr

def emptyVitals : VitalSigns := ⟨none, none, none, none⟩

structure PostOperativeNote where
  id : String
  patient_id : String
  surgery_id : Option String
  day_number : Nat
  vital_signs : Option VitalSigns
  pain_level : Option Nat
  mobility_status : Option String
  wound_condition : Option String
  complications : Option String
  recovery_notes : Option String
  created_at : Nat
deriving DecidableEq, Repr

structure RecoveryMilestone where
  id : String
  patient_id : String
  milestone_type : String
  milestone_description : String
  achieved : Bool
  achieved_date : Option String
  target_date : Option String
  notes : Option String
  created_at : Nat
deriving DecidableEq, Repr

/-- The storage collaborator: table contents in stored order plus a
read-failure flag per table (a failing `select` resolves to
`(data: null, error: e)`, never to a rejected promise). -/
structure DB where
  patients : List Patient
  medical_records : List MedicalRecord
  surgeries : List Surgery
  post_operative_notes : List PostOperativeNote
  recovery_milestones : List RecoveryMilestone
  errPatients : Bool
  errRecords : Bool
  errSurgeries : Bool
  errNotes : Bool
  errMilestones : Bool
deriving Repr

/-- Session state of the chat component: the authenticated user (if any),
the selected patient (if any), and `new Date().getFullYear()`. -/
structure Session where
  user : Option String
  selectedPatientId : Option String
  currentYear : Nat
deriving Repr

/-- Descending sort by a numeric key (`order(col, { ascending: false })`);
the tie order is not specified by the storage layer. -/
def sortDescBy {α : Type} (key : α → Nat) (l : List α) : List α :=
  List.insertionSort (fun a b => key b ≤ key a) l

/-- Case-insensitive substring filter (`ilike('full_name', '%name%')`). -/
def ilikeName (name : String) (p : Patient) : Bool :=
  strContains (lowerStr p.full_name) (lowerStr name)

/-- `from('patients').select(...).ilike('full_name', %name%).limit(lim)`. -/
def selPatientsByName (db : DB) (name : String) (lim : Nat) :
    Except Unit (List Patient) :=
  if db.errPatients then .error () else .ok ((db.patients.filter (ilikeName name)).take lim)

/-- `from('patients').select('*').eq('id', pid).single()`: `.single()` also
errors when no row matches. -/
def selPatientById (db : DB) (pid : String) : Except Unit Patient :=
  if db.errPatients then .error ()
  else
    match db.patients.find? (fun p => p.id == pid) with
    | some p => .ok p
    | none => .error ()

/-- `from('patients').select('*').eq('department', dept)
.order('created_at', { ascending: false }).limit(10)`. -/
def selPatientsByDept (db : DB) (dept : String) : Except Unit (List Patient) :=
  if db.errPatients then .error ()
  else .ok ((sortDescBy Patient.created_at (db.patients.filter (fun p => p.department == dept))).take 10)

/-- `from('patients').select('id, full_name')` (no filter, no order). -/
def selAllPatients (db : DB) : Except Unit (List Patient) :=
  if db.errPatients then .error () else .ok db.patients

/-- `from('medical_records').select('*').eq('patient_id', pid)` without an
`order` clause (stored order). -/
def selRecordsRaw (db : DB) (pid : String) : Except Unit (List MedicalRecord) :=
  if db.errRecords then .error ()
  else .ok (db.medical_records.filter (fun r => r.patient_id == pid))

/-- Medical records ordered by `created_at` descending, optionally limited
(`none` means no `limit` clause). -/
def selRecordsDesc (db : DB) (pid : String) (lim : Option Nat) :
    Except Unit (List MedicalRecord) :=
  if db.errRecords then .error ()
  else
    let sorted := sortDescBy MedicalRecord.created_at
      (db.medical_records.filter (fun r => r.patient_id == pid))
    .ok (match lim with
         | some k => sorted.take k
         | none => sorted)

/-- `from('surgeries').select('*').eq('patient_id', pid)` (stored order). -/
def selSurgeriesRaw (db : DB) (pid : String) : Except Unit (List Surgery) :=
  if db.errSurgeries then .error ()
  else .ok (db.surgeries.filter (fun s => s.patient_id == pid))

/-- Surgeries ordered by `surgery_date` descending. -/
def selSurgeriesDesc (db : DB) (pid : String) : Except Unit (List Surgery) :=
  if db.errSurgeries then .error ()
  else .ok (sortDescBy (fun s => dateKey s.surgery_date)
      (db.surgeries.filter (fun s => s.patient_id == pid)))

/-- Post-operative notes ordered by `day_number` descending, optionally
limited (`lim = 0` means no limit clause). -/
def selNotesDesc (db : DB) (pid : String) (lim : Option Nat) :
    Except Unit (List PostOperativeNote) :=
  if db.errNotes then .error ()
  else
    let sorted := sortDescBy PostOperativeNote.day_number
      (db.post_operative_notes.filter (fun n => n.patient_id == pid))
    .ok (match lim with
         | some k => sorted.take k
         | none => sorted)

/-- Latest post-operative note of one surgery
(`.eq('patient_id', pid).eq('surgery_id', sid).order('day_number',
{ ascending: false }).limit(1)`). -/
def selNoteForSurgery (db : DB) (pid sid : String) :
    Except Unit (List PostOperativeNote) :=
  if db.errNotes then .error ()
  else .ok ((sortDescBy PostOperativeNote.day_number
      (db.post_operative_notes.filter
        (fun n => n.patient_id == pid && n.surgery_id == some sid))).take 1)

/-- `from('recovery_milestones').select('*').eq('patient_id', pid)`
(stored order). -/
def selMilestonesRaw (db : DB) (pid : String) : Except Unit (List RecoveryMilestone) :=
  if db.errMilestones then .error ()
  else .ok (db.recovery_milestones.filter (fun r => r.patient_id == pid))

/-- Recovery milestones ordered by `created_at` descending. -/
def selMilestonesDesc (db : DB) (pid : String) : Except Unit (List RecoveryMilestone) :=
  if db.errMilestones then .error ()
  else .ok (sortDescBy RecoveryMilestone.created_at
      (db.recovery_milestones.filter (fun r => r.patient_id == pid)))

/-! ### Static knowledge tables

The two read-only reference maps compiled into the chat component, as
association lists in object-key insertion order (the order `Object.keys`
iterates). -/

structure SurgeryEntry where
  purpose : Option String
  procedure : String
  process : String
  risks : Option String
  precautions : Option String
  recovery : Option String
  learning : String
deriving Repr

def surgeryInfo : List (String × SurgeryEntry) :=
  [("coronary artery bypass",
    { purpose := some "Restore blood flow to ischemic myocardium by bypassing occluded coronary arteries."
      procedure := "Coronary Artery Bypass Grafting (CABG) involves creating new paths for blood flow using vessel grafts to bypass blocked coronary arteries."
      process := "1. Sternotomy and harvesting of graft vessels (typically saphenous vein or internal mammary artery)\n2. Establishing cardiopulmonary bypass (if on-pump) or off-pump techniques\n3. Identification of target coronary vessels and distal anastomoses\n4. Construction of proximal and distal graft anastomoses\n5. Weaning from bypass and hemostasis\n6. Chest closure and postoperative transfer to ICU"
      risks := some "Bleeding, graft occlusion, myocardial infarction, stroke, infection, arrhythmias, renal dysfunction."
      precautions := some "Optimize hemodynamics, manage anticoagulation carefully, monitor electrolytes and urine output, ensure aseptic technique, and perioperative glycemic control."
      recovery := some "ICU 24–72 hours, inpatient stay ~5–10 days depending on recovery; early mobilization, physiotherapy, cardiac rehab referral; full recovery weeks to months."
      learning := "• Anatomy of coronary circulation\n• Graft selection and indications\n• CPB physiology and management\n• Post-op monitoring and complication recognition\n• Importance of secondary prevention (statins, antiplatelets)" }),
   ("mastectomy",
    { purpose := some "Remove malignant breast tissue and regional nodes to achieve local control of breast cancer."
      procedure := "Surgical removal of breast tissue, which can be partial (lumpectomy) or complete (mastectomy), often combined with sentinel lymph node biopsy."
      process := "1. Pre-op marking and imaging review\n2. Sentinel node identification and biopsy\n3. Oncological resection with adequate margins\n4. Hemostasis and specimen handling\n5. Consider immediate or delayed reconstruction\n6. Wound closure and drain placement"
      risks := some "Bleeding, seroma, infection, lymphedema, sensory changes, need for re-excision."
      precautions := some "Pre-op imaging, anticoagulation review, counselling about reconstruction options, and perioperative antibiotics as indicated."
      recovery := some "Outpatient or short inpatient stay; drain management for 1–2 weeks; physiotherapy for shoulder mobility; follow-up for pathology and adjuvant planning."
      learning := "• Breast anatomy and lymphatic drainage\n• Principles of oncologic margins\n• Sentinel node technique\n• Post-op care and psychosocial support" }),
   ("appendectomy",
    { purpose := some "Remove inflamed or perforated appendix to prevent or treat peritonitis and sepsis."
      procedure := "Removal of the appendix, performed laparoscopically or via open appendectomy depending on presentation."
      process := "1. Port placement/incision\n2. Exploration and identification of appendix\n3. Mesenteric dissection and securing appendiceal base\n4. Division and removal of appendix\n5. Peritoneal toilet if perforated\n6. Closure and dressing"
      risks := some "Wound infection, intra-abdominal abscess, bowel injury, bleeding."
      precautions := some "Appropriate imaging for diagnosis, perioperative antibiotics, careful tissue handling, and early recognition of perforation."
      recovery := some "Often discharge within 24–48 hours for uncomplicated laparoscopic cases; longer if perforated; wound care and activity restrictions for 1–2 weeks."
      learning := "• Laparoscopic skills and port placement\n• Recognizing complicated appendicitis\n• Principles of peritoneal contamination management\n• Post-op analgesia and mobilization" }),
   ("colectomy",
    { purpose := some "Resect diseased segments of colon for cancer, obstruction, or inflammatory disease."
      procedure := "Surgical removal of part or all of the colon with primary anastomosis or stoma creation as indicated."
      process := "1. Bowel preparation and positioning\n2. Vascular control and mobilization\n3. Resection of diseased segment\n4. Anastomosis or creation of stoma\n5. Check perfusion and hemostasis\n6. Closure and drain/stoma care as needed"
      risks := some "Anastomotic leak, bleeding, infection, ileus, stoma complications."
      precautions := some "Patient optimization, prophylactic antibiotics, DVT prophylaxis, careful anastomotic technique, and perfusion assessment."
      recovery := some "Enhanced recovery protocols: early feeding, mobilization; hospital stay typically 3–7 days; stoma education if applicable."
      learning := "• Colorectal anatomy and oncologic principles\n• Anastomosis technique and leak recognition\n• Stoma creation and care\n• ERAS principles" }),
   ("thyroidectomy",
    { purpose := some "Remove part or all of the thyroid for benign or malignant disease while preserving laryngeal nerves and parathyroids."
      procedure := "Excision of part or whole thyroid, often with lymph node assessment when indicated."
      process := "1. Neck positioning and incision\n2. Strap muscle retraction\n3. Identification and preservation of recurrent laryngeal nerves and parathyroids\n4. Vessel ligation and gland removal\n5. Hemostasis and closure"
      risks := some "Hypocalcemia from parathyroid injury, recurrent laryngeal nerve palsy, bleeding, hematoma, infection."
      precautions := some "Intraoperative nerve monitoring if available, careful identification of parathyroids, readiness to manage hematoma, and calcium monitoring post-op."
      recovery := some "Short inpatient stay; monitor calcium levels; voice and calcium-related symptoms follow-up; wound care."
      learning := "• Neck anatomy and nerve preservation\n• Post-op calcium management\n• Recognition of airway compromise\n• Importance of careful dissection" })]

structure DiseaseEntry where
  summary : String
  notes : String
deriving Repr

def diseaseInfo : List (String × DiseaseEntry) :=
  [("bypass surgery",
    { summary := "Coronary artery bypass grafting (CABG), commonly called bypass surgery, is a procedure to restore blood flow to the heart by grafting vessels to bypass blocked coronary arteries."
      notes := "Indications: significant coronary artery disease with ischemia. Key perioperative points: monitor hemodynamics, watch for arrhythmias, manage bleeding, early mobilization. Common complications: wound infection, graft occlusion, myocardial infarction, stroke." }),
   ("coronary artery bypass grafting",
    { summary := "Coronary artery bypass grafting (CABG) replaces or bypasses damaged coronary arteries using grafts from other vessels to improve myocardial perfusion."
      notes := "Teaching: Understand indications vs PCI, recognize postop complications (tamponade, graft failure), and importance of secondary prevention (antiplatelets, statins, BP control)." }),
   ("myocardial infarction",
    { summary := "Myocardial infarction (heart attack) occurs when blood flow to part of the heart is blocked, causing ischemia and necrosis."
      notes := "Recognize chest pain, ECG changes, elevated troponin. Acute management: MONA-B (Morphine, Oxygen if hypoxic, Nitroglycerin, Aspirin, Beta-blocker as indicated), reperfusion strategies (PCI/CABG), and long-term secondary prevention." }),
   ("heart failure",
    { summary := "Heart failure is a complex clinical syndrome where the heart cannot pump enough blood to meet the body's needs, characterized by reduced ejection fraction (HFrEF) or preserved ejection fraction (HFpEF)."
      notes := "Key learning points: 1) Classify based on EF and NYHA. 2) Core medications: Beta-blockers, ACEi/ARB, MRA, SGLT2i for HFrEF. 3) Monitor volume status, renal function, and electrolytes. 4) Recognize acute decompensation signs. 5) Lifestyle modifications crucial." }),
   ("atrial fibrillation",
    { summary := "Atrial fibrillation (AF) is the most common sustained cardiac arrhythmia, characterized by irregular atrial electrical activity leading to inefficient atrial contraction."
      notes := "Management approach: 1) Rate vs rhythm control strategy. 2) Stroke prevention with anticoagulation based on CHA2DS2-VASc score. 3) Identify and treat underlying causes. 4) Monitor for complications and medication side effects." }),
   ("valvular heart disease",
    { summary := "Disorders affecting heart valves (mitral, aortic, tricuspid, pulmonary) that can lead to stenosis or regurgitation, impacting cardiac function."
      notes := "Clinical pearls: 1) Recognize characteristic murmurs. 2) Regular echocardiographic monitoring. 3) Timing of intervention based on symptoms and cardiac function. 4) Anticoagulation in mechanical valves. 5) Endocarditis prophylaxis in select cases." }),
   ("coronary artery disease",
    { summary := "Progressive atherosclerotic disease of coronary arteries leading to reduced myocardial blood flow, causing angina, infarction, or heart failure."
      notes := "Essential teaching: 1) Risk factor modification. 2) Medical therapy (antiplatelets, statins, beta-blockers). 3) Revascularization indications (PCI vs CABG). 4) Stress testing modalities. 5) Acute coronary syndrome recognition and management." }),
   ("cardiomyopathy",
    { summary := "Disease of the heart muscle affecting its size, shape, or function. Types include dilated, hypertrophic, and restrictive cardiomyopathy."
      notes := "Focus areas: 1) Genetic vs acquired causes. 2) Specific therapy based on type. 3) Risk stratification for sudden cardiac death. 4) Family screening in genetic cases. 5) Advanced heart failure management when indicated." }),
   ("pericarditis",
    { summary := "Inflammation of the pericardium (heart covering) causing chest pain and potential complications like tamponade."
      notes := "Clinical approach: 1) Recognize ECG changes (diffuse ST elevation). 2) NSAIDs and colchicine as first-line therapy. 3) Monitor for complications. 4) Identify underlying causes. 5) Recognize recurrence patterns." }),
   ("appendicitis",
    { summary := "Appendicitis is inflammation of the appendix often due to luminal obstruction, typically presenting with periumbilical pain migrating to the right lower quadrant."
      notes := "Diagnosis: clinical exam, ultrasound/CT. Management: early appendectomy; antibiotics in selected cases. Complications: perforation, abscess." }),
   ("pneumonia",
    { summary := "Pneumonia is infection of the lung parenchyma causing cough, fever, and infiltrates on imaging."
      notes := "Assess severity (CURB-65), start appropriate empiric antibiotics, monitor oxygenation, and consider sputum cultures for targeted therapy." }),
   ("diabetes",
    { summary := "Diabetes mellitus is a metabolic disease characterized by hyperglycemia due to defects in insulin secretion, insulin action, or both."
      notes := "Key teaching: differentiate type 1 vs type 2, monitor HbA1c, screen for complications (retinopathy, nephropathy, neuropathy), and manage with lifestyle, oral agents, and insulin as needed." }),
   ("hypertension",
    { summary := "Hypertension is persistently elevated arterial blood pressure and a major risk factor for cardiovascular disease."
      notes := "Lifestyle modification first-line; pharmacotherapy based on comorbidities and BP targets. Monitor renal function and electrolytes with certain medications." })]

/-- First surgery-table key related to a topic string by the bidirectional
substring test `topic.includes(k) || k.includes(topic)`. -/
def surgeryKeyFor (topic : String) : Option String :=
  (surgeryInfo.find? (fun e =>
      strContains topic e.1 || strContains e.1 topic)).map (fun e => e.1)

/-- First disease-table key related to a topic string (same test). -/
def diseaseKeyFor (topic : String) : Option String :=
  (diseaseInfo.find? (fun e =>
      strContains topic e.1 || strContains e.1 topic)).map (fun e => e.1)

/-- First surgery-table entry related to a topic by the bidirectional test
`topic.includes(k) || k.includes(topic)` (table order). -/
def surgeryTopicHit (topic : String) : Option (String × SurgeryEntry) :=
  surgeryInfo.find? (fun e => strContains topic e.1 || strContains e.1 topic)

/-- First disease-table entry related to a topic (same bidirectional test). -/
def diseaseTopicHit (topic : String) : Option (String × DiseaseEntry) :=
  diseaseInfo.find? (fun e => strContains topic e.1 || strContains e.1 topic)

/-- First disease-table entry whose key occurs in the message (rule 2,
`m.includes(key)` over `Object.keys(diseaseInfo)`). -/
def diseaseSubstrHit (m : String) : Option (String × DiseaseEntry) :=
  diseaseInfo.find? (fun e => strContains m e.1)

/-! ### Response formatting helpers shared by the rule handlers -/

/-- `s || d` for a non-optional string column. -/
def jsOrStr (s d : String) : String := if s = "" then d else s

/-- `p.date_of_birth ? currentYear - birthYear : 'Unknown'`. -/
def ageOrUnknown (cy : Nat) : Option SimpleDate → String
  | some d => toString ((cy : Int) - (d.year : Int))
  | none => "Unknown"

/-- `note.day_number || '?'` (0 is falsy). -/
def dayOrQ (n : Nat) : String := if n = 0 then "?" else toString n

/-- `n.pain_level || 'N/A'` (null/undefined and 0 are falsy). -/
def painOrNA : Option Nat → String
  | some n => if n = 0 then "N/A" else toString n
  | none => "N/A"

/-- The conditional ``${n.complications ? ` | Complications: ${...}` : ''}``
suffix. -/
def compSuffix (o : Option String) : String :=
  if jsTruthyS o then " | Complications: " ++ o.getD "" else ""

/-- `rec.medications || rec.current_medications || 'No medications recorded'`. -/
def medsOr (r : MedicalRecord) : String :=
  jsOr r.medications (jsOr r.current_medications "No medications recorded")

/-- `JSON.stringify(note.vital_signs || {})`, with present keys in column
order. -/
def jsonVitals (o : Option VitalSigns) : String :=
  match o with
  | none => "\x7b\x7d"
  | some v =>
    let fields : List String :=
      (match v.blood_pressure with
       | some bp => ["\"blood_pressure\":\"" ++ bp ++ "\""]
       | none => []) ++
      (match v.heart_rate with
       | some hr => ["\"heart_rate\":" ++ toString hr]
       | none => []) ++
      (match v.temperature with
       | some t => ["\"temperature\":" ++ toString t]
       | none => []) ++
      (match v.oxygen_saturation with
       | some sp => ["\"oxygen_saturation\":" ++ toString sp]
       | none => [])
    "\x7b" ++ strJoin "," fields ++ "\x7d"

/-! ### Rule handlers of `handleLocalQuery` (AIChat.tsx lines 236-882) -/

/-- `getPatientPII` (lines 115-128): a failing read or a missing row yields
`null`. -/
def getPatientPII (db : DB) (pid : String) : Option Patient :=
  match selPatientById db pid with
  | .ok p => some p
  | .error _ => none

/-- Contact lines assembled by the PII branch (same construction for the
selected patient and for a name-resolved patient). -/
def piiParts (m : String) (p : Patient) : List String :=
  (if strContains m "address" && jsTruthyS p.address then
    ["Address: " ++ p.address.getD ""] else []) ++
  (if containsAnySub m ["phone", "contact"] && jsTruthyS p.phone then
    ["Phone: " ++ p.phone.getD ""] else []) ++
  (if strContains m "email" && jsTruthyS p.email then
    ["Email: " ++ p.email.getD ""] else [])

/-- Rule 1 body (lines 240-286): PII requests. -/
def piiHandlerCore (env : Session) (db : DB) (m : String) : Option String :=
  if env.user.isNone then
    some "I cannot provide personal contact details unless you are signed in with appropriate access."
  else
    match env.selectedPatientId with
    | some pid =>
      match getPatientPII db pid with
      | none => some "No contact information available for the selected patient."
      | some pii =>
        let parts := piiParts m pii
        if parts = [] then some "No matching contact fields found for this patient."
        else some (strJoin "\n" parts)
    | none =>
      match extractPIIName m with
      | some name =>
        match selPatientsByName db name 10 with
        | .error _ => none
        | .ok [] => some ("No patients found matching \"" ++ name ++ "\".")
        | .ok (p :: _) =>
          let parts := piiParts m p
          if parts = [] then some ("No contact details found for " ++ p.full_name ++ ".")
          else some ("Contact details for " ++ p.full_name ++ ":\n" ++ strJoin "\n" parts)
      | none =>
        some "Please select a patient or include a patient name when requesting contact details."

/-- Rule 2 formatting (line 293). -/
def diseaseText (e : String × DiseaseEntry) : String :=
  "About " ++ e.1 ++ ":\n" ++ e.2.summary ++ "\n\nNotes for learners:\n" ++ e.2.notes

/-- Rule 3 body (lines 301-312): total patient count and list. -/
def countCore (db : DB) : Option String :=
  match selAllPatients db with
  | .error _ => none
  | .ok [] => some "No patients found."
  | .ok data =>
    let names := strJoin "\n• " (data.map Patient.full_name)
    some ("Total patients: " ++ toString data.length ++ "\n\n• " ++ names)

/-- Shared full-record text (rule 4, lines 329-380, and the identical
selected-patient variant, lines 616-665). -/
def fullRecordText (cy : Nat) (db : DB) (p : Patient) : String :=
  let recs := ((selRecordsDesc db p.id none).toOption.getD [])
  let surgs := ((selSurgeriesDesc db p.id).toOption.getD [])
  let notes := ((selNotesDesc db p.id (some 5)).toOption.getD [])
  let milestones := ((selMilestonesRaw db p.id).toOption.getD [])
  let dob := match p.date_of_birth with
    | some d => dateStr d
    | none => "Unknown"
  let age := ageOrUnknown cy p.date_of_birth
  let out : List String :=
    ["Full record for " ++ p.full_name ++ ":",
     "- Age: " ++ age,
     "- DOB: " ++ dob,
     "- Gender: " ++ jsOr p.gender "Not specified",
     "- Blood type: " ++ jsOr p.blood_type "Not specified",
     "- Department: " ++ jsOrStr p.department "Not specified",
     "- Status: " ++ jsOr p.status "Not specified",
     "- Contact: " ++ jsOr p.phone "Not provided" ++ " | " ++ jsOr p.email "No email",
     "- Address: " ++ jsOr p.address "Not provided",
     ""] ++
    (match recs.head? with
     | some r =>
       ["Diagnosis & Treatment:",
        "• Diagnosis: " ++ jsOrStr r.diagnosis "Not recorded",
        "• Medications: " ++ jsOr r.medications "Not recorded",
        "• Allergies: " ++ jsOr r.allergies "Not recorded",
        "• Treatment Plan: " ++ jsOr r.treatment_plan "Not recorded",
        ""]
     | none => []) ++
    (if surgs.isEmpty then []
     else
       ["Surgeries:"] ++
       (surgs.map (fun s =>
         ["• " ++ s.surgery_type ++ " — " ++
            (match s.surgery_date with
             | some d => dateTimeStr d
             | none => "date/time unknown") ++ " by " ++ jsOr s.surgeon_name "Unknown"] ++
         (if jsTruthyS s.notes then ["  Notes: " ++ s.notes.getD ""] else []))).flatten ++
       [""]) ++
    (if notes.isEmpty then []
     else
       ["Recent Post-Op Notes:"] ++
       (notes.take 5).map (fun n =>
         "• Day " ++ dayOrQ n.day_number ++ " — Pain: " ++ painOrNA n.pain_level ++
           " | Wound: " ++ jsOr n.wound_condition "N/A" ++ compSuffix n.complications) ++
       [""]) ++
    (if milestones.isEmpty then []
     else
       let achieved := (milestones.filter (fun x => x.achieved)).length
       ["Recovery milestones: " ++ toString achieved ++ "/" ++
          toString milestones.length ++ " achieved"])
  strJoin "\n" out

/-- Rule 4 body (lines 315-385): full patient details by name. -/
def fullDetailsCore (env : Session) (db : DB) (name : String) : Option String :=
  match selPatientsByName db name 1 with
  | .error _ => some "An error occurred while fetching patient details. Please try again."
  | .ok [] => some ("No record found for " ++ name ++ ".")
  | .ok (p :: _) => some (fullRecordText env.currentYear db p)

/-- Tail of the rule-5 disambiguation line after the patient name. -/
def multiLineTail (cy : Nat) (p : Patient) : String :=
  " — " ++ jsOrStr p.department "Unknown dept" ++ " — Age: " ++
    ageOrUnknown cy p.date_of_birth

/-- Disambiguation line of rule 5 (lines 403-406). -/
def multiPatientLine (cy : Nat) (p : Patient) : String :=
  "• " ++ p.full_name ++ multiLineTail cy p

/-- Rule 5 single-patient dispatch on the action word (lines 413-480). -/
def nameActionSingle (env : Session) (db : DB) (patient : Patient) (action : String) :
    Option String :=
  if containsAnySub action ["age", "how old"] then
    some (patient.full_name ++ " — Age: " ++ ageOrUnknown env.currentYear patient.date_of_birth ++
      " (DOB: " ++
      (match patient.date_of_birth with
       | some d => dateStr d
       | none => "Unknown") ++ ")")
  else if containsAnySub action ["blood", "blood type", "blood group"] then
    some (patient.full_name ++ " — Blood type: " ++ jsOr patient.blood_type "Not recorded")
  else if containsAnySub action ["contact", "phone", "email", "address"] then
    some ("Contact for " ++ patient.full_name ++ ":\nPhone: " ++ jsOr patient.phone "Not recorded" ++
      "\nEmail: " ++ jsOr patient.email "Not recorded" ++
      "\nAddress: " ++ jsOr patient.address "Not recorded" ++
      "\nEmergency contact: " ++ jsOr patient.emergency_contact_name "Not recorded" ++
      " — " ++ jsOr patient.emergency_contact_phone "Not recorded")
  else if containsAnySub action ["surgery", "surgeries"] then
    match selSurgeriesDesc db patient.id with
    | .error _ => some "I encountered an error processing that request. Please try again."
    | .ok [] => some ("No surgeries found for " ++ patient.full_name ++ ".")
    | .ok surgs =>
      let blocks := surgs.map (fun s =>
        "\n• " ++ s.surgery_type ++ " — " ++
          (match s.surgery_date with
           | some d => dateTimeStr d
           | none => "date/time unknown") ++
          "\n  Surgeon: " ++ jsOr s.surgeon_name "Unknown" ++
          "\n  Duration: " ++
          (if jsTruthyN s.duration_minutes then
            toString (s.duration_minutes.getD 0) ++ " minutes"
           else "Not recorded") ++ "\n" ++
          (match surgeryTopicHit (lowerStr s.surgery_type) with
           | some (_, info) =>
             "  Procedure: " ++ info.procedure ++ "\n  Purpose: " ++ jsOr info.purpose "N/A" ++
               "\n  Learning: " ++ info.learning ++ "\n"
           | none => "") ++
          (match selNoteForSurgery db patient.id s.id with
           | .ok (n :: _) =>
             "  Latest post-op: Pain " ++ painOrNA n.pain_level ++ " | Wound: " ++
               jsOr n.wound_condition "N/A" ++ compSuffix n.complications ++ "\n"
           | _ => "") ++
          "\n")
      some ("Surgeries for " ++ patient.full_name ++ ":\n" ++ String.join blocks)
  else if containsAnySub action ["postop", "post-op", "post op", "postoperative", "post operative"] then
    match selNotesDesc db patient.id (some 10) with
    | .error _ => some "I encountered an error processing that request. Please try again."
    | .ok [] => some ("No post-operative notes found for " ++ patient.full_name ++ ".")
    | .ok notes =>
      let lines := notes.map (fun n =>
        "• Day " ++ dayOrQ n.day_number ++ " — Vitals: " ++ jsonVitals n.vital_signs ++
          " | Pain: " ++ painOrNA n.pain_level ++ " | Wound: " ++
          jsOr n.wound_condition "N/A" ++ compSuffix n.complications)
      some ("Post-operative notes for " ++ patient.full_name ++
        " (most recent first):\n" ++ strJoin "\n" lines)
  else if containsAnySub action ["recovery", "progress"] then
    match selMilestonesDesc db patient.id with
    | .error _ => some "I encountered an error processing that request. Please try again."
    | .ok [] => some ("No recovery milestones found for " ++ patient.full_name ++ ".")
    | .ok ms =>
      let achieved := (ms.filter (fun x => x.achieved)).length
      let recent := (ms.take 5).map (fun d =>
        "• " ++ d.milestone_type ++ " — " ++ d.milestone_description ++ " " ++
          (if d.achieved then "(achieved)" else ""))
      some ("Recovery progress for " ++ patient.full_name ++ ": " ++ toString achieved ++
        "/" ++ toString ms.length ++ " achieved\nRecent:\n" ++ strJoin "\n" recent)
  else if containsAnySub action ["meds", "medications", "drugs", "prescription"] then
    match selRecordsDesc db patient.id (some 5) with
    | .error _ => some "I encountered an error processing that request. Please try again."
    | .ok [] => some ("No medical records found for " ++ patient.full_name ++ ".")
    | .ok (r :: _) =>
      some ("Latest medical record for " ++ patient.full_name ++ ":\nDiagnosis: " ++
        jsOrStr r.diagnosis "N/A" ++ "\nMedications: " ++ medsOr r)
  else
    some ("Found patient: " ++ patient.full_name ++ " — Department: " ++
      jsOrStr patient.department "N/A" ++ " — Status: " ++ jsOr patient.status "N/A")

/-- Rule 5 body (lines 388-485): name-scoped action queries. -/
def nameActionCore (env : Session) (db : DB) (name action : String) : Option String :=
  match selPatientsByName db name 10 with
  | .error _ => some "I encountered an error processing that request. Please try again."
  | .ok [] => some ("No patients found matching \"" ++ name ++ "\".")
  | .ok [patient] => nameActionSingle env db patient action
  | .ok patients =>
    let rows := strJoin "\n" (patients.map (multiPatientLine env.currentYear))
    some ("Multiple patients found matching \"" ++ name ++ "\":\n" ++ rows ++
      "\n\nPlease repeat with the full name or select the patient in the UI for detailed info.")

/-- Tail of a department-listing line after the patient name: status
(`p.status || 'status unknown'`) and admission date. -/
def deptLineTail (p : Patient) : String :=
  " — " ++ jsOr p.status "status unknown" ++ ", admitted " ++
    (match p.admission_date with
     | some d => dateStr d
     | none => "admission date unknown")

/-- A line of the rule-6 department listing (lines 502-505). -/
def deptLine (p : Patient) : String :=
  "• " ++ p.full_name ++ deptLineTail p

/-- Rule 6 body (lines 487-512): department-scoped patient listing. -/
def deptCore (db : DB) (dept : String) : Option String :=
  match selPatientsByDept db dept with
  | .error _ => none
  | .ok [] => some ("No patients found in " ++ dept ++ ".")
  | .ok data =>
    let list := strJoin "\n" (data.map deptLine)
    some ("Patients in " ++ dept ++ " (showing up to 10):\n" ++ list)

/-- Rule 7 inner if-chain (lines 519-523): substring dispatch on the
normalized message; falling off the chain continues with the next rule. -/
def singleFieldAnswer (cy : Nat) (p : Patient) (m : String) : Option String :=
  if containsAnySub m ["age", "how old"] then
    some ("Age: " ++
      (match p.date_of_birth with
       | some d => toString ((cy : Int) - (d.year : Int))
       | none => "NaN") ++
      " (DOB: " ++
      (match p.date_of_birth with
       | some d => dateStr d
       | none => "unknown") ++ ")")
  else if containsAnySub m ["blood group", "blood type"] then
    some ("Blood type: " ++ jsOr p.blood_type "Not recorded")
  else if containsAnySub m ["phone", "contact"] then
    some ("Phone: " ++ jsOr p.phone "Not recorded" ++ "\nEmergency contact: " ++
      jsOr p.emergency_contact_name "Not recorded" ++ " — " ++
      jsOr p.emergency_contact_phone "Not recorded")
  else if strContains m "email" then
    some ("Email: " ++ jsOr p.email "Not recorded")
  else if strContains m "address" then
    some ("Address: " ++ jsOr p.address "Not recorded")
  else none

/-- Rule 7 body (lines 515-528): `some r` is a `return r`, `none` falls
through to the next rule (which cannot happen when the rule-7 word test
holds; see `singleFieldAnswer_exhaustive`). -/
def singleFieldBranch (env : Session) (db : DB) (m : String) : Option (Option String) :=
  match env.selectedPatientId with
  | none => none
  | some pid =>
    match selPatientById db pid with
    | .error _ => some (some "No patient selected or patient record not found.")
    | .ok p =>
      match singleFieldAnswer env.currentYear p m with
      | some r => some (some r)
      | none => none

/-- Rule 8 answer for a nonempty topic (lines 534-549). -/
def teachAnswer (topic : String) : String :=
  match surgeryTopicHit topic with
  | some (k, info) =>
    "About " ++ k ++ ":\nPurpose: " ++ jsOr info.purpose "N/A" ++
      "\n\nProcedure Overview:\n" ++ info.procedure ++ "\n\nProcess:\n" ++ info.process ++
      "\n\nRisks:\n" ++ jsOr info.risks "N/A" ++ "\n\nPrecautions:\n" ++
      jsOr info.precautions "N/A" ++ "\n\nRecovery:\n" ++ jsOr info.recovery "N/A" ++
      "\n\nLearning points for interns:\n" ++ info.learning
  | none =>
    match diseaseTopicHit topic with
    | some (k, info) =>
      "About " ++ k ++ ":\n" ++ info.summary ++ "\n\nNotes for learners:\n" ++ info.notes
    | none =>
      "I do not have structured information on that topic locally. I can still look up patient records or provide basic guidance based on available data."

/-- Tail of a rule-9 listing line after the patient name. -/
def ageLineTail (cy : Nat) (p : Patient) : String :=
  " — Age: " ++ ageOrUnknown cy p.date_of_birth

/-- A line of the rule-9 multiple-match listing (lines 570-573). -/
def ageLine (cy : Nat) (p : Patient) : String :=
  "• " ++ p.full_name ++ ageLineTail cy p

/-- Rule 9 body (lines 553-579): quick name+age query. -/
def nameAgeCore (env : Session) (db : DB) (name : String) : Option String :=
  match selPatientsByName db name 10 with
  | .error _ => some "I encountered an error while searching for that patient. Please try again."
  | .ok [] => some ("No patients found matching \"" ++ name ++ "\".")
  | .ok [p] => some (p.full_name ++ ageLineTail env.currentYear p)
  | .ok data =>
    let rows := strJoin "\n" (data.map (ageLine env.currentYear))
    some ("Multiple patients found matching \"" ++ name ++ "\":\n" ++ rows)

/-- Rule 10 body (lines 582-609): generic patient search. -/
def searchCore (_env : Session) (db : DB) (name : String) : Option String :=
  match selPatientsByName db name 10 with
  | .error _ =>
    some "I encountered an error while searching for the patient. Please try again or contact support if the issue persists."
  | .ok [] => some ("No patients found matching \"" ++ name ++ "\".")
  | .ok data =>
    let rows := strJoin "\n\n" (data.map (fun p =>
      let admitted := match p.admission_date with
        | some d => "admitted " ++ dateStr d
        | none => ""
      let diagnosis := jsOr p.latest_diagnosis ""
      "• " ++ p.full_name ++ "\n    Department: " ++ p.department ++
        "\n    Status: " ++ jsOr p.status "Not specified" ++ "\n    " ++ admitted ++
        "\n    " ++ (if diagnosis ≠ "" then "Diagnosis: " ++ diagnosis else "")))
    some ("Found " ++ toString data.length ++ " patient(s) matching \"" ++ name ++
      "\":\n" ++ rows)

/-- Rule 11A body (lines 614-670): all info of the selected patient. -/
def allInfoCore (env : Session) (db : DB) (pid : String) : Option String :=
  match selPatientById db pid with
  | .error _ => some "No patient selected or patient record not found."
  | .ok p => some (fullRecordText env.currentYear db p)

/-- Rule 11B body (lines 672-735): educational explainer for the selected
patient's diagnosis. -/
def conditionCore (db : DB) (pid : String) : Option String :=
  match selRecordsDesc db pid (some 1) with
  | .error _ => none
  | .ok [] => some "No medical records found for this patient."
  | .ok (record :: _) =>
    let diagnosis := lowerStr record.diagnosis
    match diseaseInfo.find? (fun e =>
        strContains diagnosis e.1 || strContains e.1 diagnosis) with
    | some (_, info) =>
      some ("\nPatient's Diagnosis: " ++ record.diagnosis ++
        "\n\nAbout this condition:\n" ++ info.summary ++
        "\n\nClinical Context:\n• Current Medications: " ++ jsOr record.medications "None recorded" ++
        "\n• Medical History: " ++ jsOr record.medical_history "Not available" ++
        "\n• Allergies: " ++ jsOr record.allergies "None recorded" ++
        "\n\nTeaching Notes for Interns:\n" ++ info.notes ++
        "\n\nTreatment Plan:\n" ++ jsOr record.treatment_plan "No specific treatment plan recorded" ++
        "\n\nKey Learning Points:\n1. Observe how the theoretical knowledge applies to this real case\n2. Note any variations from typical presentation\n3. Follow the treatment response and adjust care accordingly")
    | none =>
      some ("\nPatient's Diagnosis: " ++ record.diagnosis ++
        "\n\nAvailable Clinical Information:\n• Medications: " ++ jsOr record.medications "None recorded" ++
        "\n• Medical History: " ++ jsOr record.medical_history "Not available" ++
        "\n• Treatment Plan: " ++ jsOr record.treatment_plan "Not specified" ++
        "\n• Allergies: " ++ jsOr record.allergies "None recorded" ++
        "\n\nNote: Consider researching more about this condition in medical literature for comprehensive understanding.")

/-- Rule 11C body (lines 738-808): surgery history with educational
content. -/
def surgeryHistCore (db : DB) (pid : String) (m : String) : Option String :=
  match selSurgeriesDesc db pid with
  | .error _ =>
    some "I encountered an error while fetching surgery information. Please try again or contact support."
  | .ok [] => some "No surgeries found for this patient."
  | .ok data =>
    let blocks := data.map (fun surgery =>
      "\n📅 " ++ surgery.surgery_type ++ "\n" ++
        "Date: " ++
        (match surgery.surgery_date with
         | some d => dateStr d
         | none => "date unknown") ++ "\n" ++
        "Surgeon: " ++ jsOr surgery.surgeon_name "unknown" ++ "\n" ++
        "Duration: " ++
        (if jsTruthyN surgery.duration_minutes then
          toString (surgery.duration_minutes.getD 0) ++ " minutes"
         else "duration not recorded") ++ "\n" ++
        (match surgeryTopicHit (lowerStr surgery.surgery_type) with
         | some (_, info) =>
           "\nProcedure Overview:\n" ++ info.procedure ++ "\n" ++
             (if containsAnySub m ["process", "how", "detail"] then
               "\nSurgical Process:\n" ++ info.process ++ "\n"
              else "") ++
             (if containsAnySub m ["learn", "teach", "intern"] then
               "\nLearning Points for Interns:\n" ++ info.learning ++ "\n"
              else "")
         | none => "") ++
        (match selNoteForSurgery db pid surgery.id with
         | .ok (latestNote :: _) =>
           "\nLatest Post-Op Status:\n" ++
             (if jsTruthyS latestNote.complications then
               "• Complications: " ++ latestNote.complications.getD "" ++ "\n"
              else "") ++
             (if jsTruthyS latestNote.wound_condition then
               "• Wound: " ++ latestNote.wound_condition.getD "" ++ "\n"
              else "") ++
             (if jsTruthyS latestNote.recovery_notes then
               "• Recovery Notes: " ++ latestNote.recovery_notes.getD "" ++ "\n"
              else "")
         | _ => "") ++
        "\n-------------------\n")
    some ("Surgery History:\n" ++ String.join blocks)

/-- Lines pushed by the rule-11D vitals summary (lines 823-832); pain level
is pushed only when truthy, so a recorded pain level of 0 is omitted. -/
def vitalsLines (note : PostOperativeNote) : List String :=
  let vitals := note.vital_signs.getD emptyVitals
  (if jsTruthyS vitals.blood_pressure then ["BP: " ++ vitals.blood_pressure.getD ""] else []) ++
  (if jsTruthyN vitals.heart_rate then ["HR: " ++ toString (vitals.heart_rate.getD 0)] else []) ++
  (match vitals.temperature with
   | some t => ["Temp: " ++ toString t ++ "°C"]
   | none => []) ++
  (match vitals.oxygen_saturation with
   | some sp => ["SpO2: " ++ toString sp ++ "%"]
   | none => []) ++
  (if jsTruthyN note.pain_level then ["Pain level: " ++ toString (note.pain_level.getD 0)] else []) ++
  (if jsTruthyS note.mobility_status then ["Mobility: " ++ note.mobility_status.getD ""] else []) ++
  (if jsTruthyS note.wound_condition then ["Wound: " ++ note.wound_condition.getD ""] else []) ++
  (if jsTruthyS note.complications then ["Complications: " ++ note.complications.getD ""] else [])

/-- Rule 11D body (lines 811-838): latest vitals of the selected patient. -/
def vitalsCore (db : DB) (pid : String) : Option String :=
  match selNotesDesc db pid (some 5) with
  | .error _ => none
  | .ok [] => some "No post-operative notes found for this patient."
  | .ok (note :: _) =>
    some ("Latest post-op note (day " ++ toString note.day_number ++ "):\n" ++
      strJoin "\n" (vitalsLines note))

/-- Rule 11E body (lines 841-858): latest medical record. -/
def medsCore (db : DB) (pid : String) : Option String :=
  match selRecordsDesc db pid (some 5) with
  | .error _ => none
  | .ok [] => some "No medical records found for this patient."
  | .ok (r :: _) =>
    some ("Latest medical record:\nDiagnosis: " ++ jsOrStr r.diagnosis "N/A" ++
      "\nMedications: " ++ medsOr r)

/-- Rule 11F body (lines 861-878): recovery milestones. -/
def milestonesCore (db : DB) (pid : String) : Option String :=
  match selMilestonesDesc db pid with
  | .error _ => none
  | .ok [] => some "No recovery milestones found for this patient."
  | .ok data =>
    let achieved := (data.filter (fun x => x.achieved)).length
    let recent := (data.take 5).map (fun d =>
      "• " ++ d.milestone_type ++ " — " ++ d.milestone_description ++ " " ++
        (if d.achieved then "(achieved)" else ""))
    some ("Milestones: " ++ toString achieved ++ "/" ++ toString data.length ++
      " achieved\nRecent:\n" ++ strJoin "\n" recent)

/-- Rule 11 body (lines 612-879): lookups scoped to the selected patient;
`none` is the final `return null` of `handleLocalQuery`. -/
def selectedBranch (env : Session) (db : DB) (m : String) : Option String :=
  match env.selectedPatientId with
  | none => none
  | some pid =>
    if allInfoTest m then allInfoCore env db pid
    else if conditionTest m then conditionCore db pid
    else if surgeryTest m then surgeryHistCore db pid m
    else if vitalsTest m then vitalsCore db pid
    else if medsTest m then medsCore db pid
    else if milestoneTest m then milestonesCore db pid
    else none

/-! ### The router itself, stage by stage

`localQueryK` is `handleLocalQuery` from its K-th rule on; each stage
either returns (`some`/`none` as the source returns a string or `null`) or
falls through to the next stage exactly where the source does. -/

def localQuery11 (env : Session) (db : DB) (_msg m : String) : Option String :=
  selectedBranch env db m

def localQuery10 (env : Session) (db : DB) (msg m : String) : Option String :=
  match searchPatientName m with
  | some name => searchCore env db name
  | none => localQuery11 env db msg m

def localQuery9 (env : Session) (db : DB) (msg m : String) : Option String :=
  match nameAgeMatch msg with
  | some rawName => nameAgeCore env db (strTrim rawName)
  | none => localQuery10 env db msg m

def localQuery8 (env : Session) (db : DB) (msg m : String) : Option String :=
  match teachCapture msg with
  | some topic => if topic ≠ "" then some (teachAnswer topic) else localQuery9 env db msg m
  | none => localQuery9 env db msg m

def localQuery7 (env : Session) (db : DB) (msg m : String) : Option String :=
  if env.selectedPatientId.isSome && singleFieldTest m then
    match singleFieldBranch env db m with
    | some r => r
    | none => localQuery8 env db msg m
  else localQuery8 env db msg m

def localQuery6 (env : Session) (db : DB) (msg m : String) : Option String :=
  match deptMatch m with
  | some dept => if deptListTest m then deptCore db dept else localQuery7 env db msg m
  | none => localQuery7 env db msg m

def localQuery5 (env : Session) (db : DB) (msg m : String) : Option String :=
  match nameActionMatch msg with
  | some (rawName, action) => nameActionCore env db (strTrim rawName) action
  | none => localQuery6 env db msg m

def localQuery4 (env : Session) (db : DB) (msg m : String) : Option String :=
  match detailsNameMatch msg with
  | some name => if name = "" then none else fullDetailsCore env db name
  | none => localQuery5 env db msg m

def localQuery3 (env : Session) (db : DB) (msg m : String) : Option String :=
  if countTest m then countCore db else localQuery4 env db msg m

def localQuery2 (env : Session) (db : DB) (msg m : String) : Option String :=
  match diseaseSubstrHit m with
  | some e => some (diseaseText e)
  | none => localQuery3 env db msg m

def localQuery1 (env : Session) (db : DB) (msg m : String) : Option String :=
  if piiTest m then piiHandlerCore env db m else localQuery2 env db msg m

/-- `handleLocalQuery` (AIChat.tsx lines 236-882). -/
def handleLocalQuery (env : Session) (db : DB) (message : String) : Option String :=
  localQuery1 env db message (normMsg message)

/-! ### Patient-context assembly (`getPatientContext`, AIChat.tsx lines 39-112)

Five reads are fanned out in a `Promise.all` and joined; a supabase query
never rejects the promise, it resolves to `(data, error)`. Only
`patientRes.error` is checked and thrown (caught as `null`); the other four
reads degrade to `[]` through `.data || []`. -/

structure CtxPatient where
  name : String
  age : Int
  gender : Option String
  blood_type : Option String
  department : String
  status : Option String
  admission_date : Option SimpleDate
deriving DecidableEq, Repr

structure CtxMedical where
  total_records : Nat
  latest_diagnosis : String
  current_medications : String
  allergies : String
deriving DecidableEq, Repr

structure CtxSurgery where
  type : String
  date : Option SimpleDate
  surgeon : Option String
  duration : Option Nat
deriving DecidableEq, Repr

structure CtxRecovery where
  days_post_operation : Nat
  total_post_op_notes : Nat
  latest_vital_signs : VitalSigns
  latest_pain_level : String
  mobility_status : String
  wound_condition : String
  complications : String
deriving DecidableEq, Repr

structure CtxMilestoneItem where
  type : String
  description : String
  achieved : Bool
  target_date : Option String
deriving DecidableEq, Repr

structure CtxMilestones where
  total : Nat
  achieved : Nat
  progress_percentage : Nat
  recent_milestones : List CtxMilestoneItem
deriving DecidableEq, Repr

structure Context where
  patient : CtxPatient
  medical_summary : CtxMedical
  surgeries : List CtxSurgery
  recovery_status : CtxRecovery
  milestones : CtxMilestones
deriving DecidableEq, Repr

/-- `postOpNotes[0]?.pain_level || 'Not recorded'`: the JS value is a number
or the fallback string; rendered here in its string form (0 is falsy). -/
def ctxPainString : Option Nat → String
  | some n => if n = 0 then "Not recorded" else toString n
  | none => "Not recorded"

/-- `x?.field || d` for a field reached through two optional layers. -/
def jsOrOO (o : Option (Option String)) (d : String) : String :=
  jsOr (o.bind id) d

/-- `Math.round((achieved / total) * 100)` over the exact rationals (the
double-precision computation is exact for the list sizes involved). -/
def progressPct (achieved total : Nat) : Nat :=
  if total = 0 then 0 else (200 * achieved + total) / (2 * total)

/-- `getPatientContext` (lines 39-112). -/
def getPatientContext (env : Session) (db : DB) : Option Context :=
  match env.selectedPatientId with
  | none => none
  | some pid =>
    match selPatientById db pid with
    | .error _ => none
    | .ok patient =>
      let medicalRecords := (selRecordsRaw db pid).toOption.getD []
      let surgeries := (selSurgeriesRaw db pid).toOption.getD []
      let postOpNotes := (selNotesDesc db pid none).toOption.getD []
      let milestones := (selMilestonesRaw db pid).toOption.getD []
      let recoveryDays := match postOpNotes.head? with
        | some n => n.day_number
        | none => 0
      let achievedMilestones := (milestones.filter (fun x => x.achieved)).length
      let totalMilestones := milestones.length
      some
        { patient :=
            { name := patient.full_name
              age := match patient.date_of_birth with
                | some d => (env.currentYear : Int) - (d.year : Int)
                | none => 0
              gender := patient.gender
              blood_type := patient.blood_type
              department := patient.department
              status := patient.status
              admission_date := patient.admission_date }
          medical_summary :=
            { total_records := medicalRecords.length
              latest_diagnosis := jsOrStr (match medicalRecords.head? with
                | some r => r.diagnosis
                | none => "") "None"
              current_medications := jsOrOO (medicalRecords.head?.map (fun r => r.medications)) "None"
              allergies := jsOrOO (medicalRecords.head?.map (fun r => r.allergies)) "None" }
          surgeries := surgeries.map (fun s =>
            { type := s.surgery_type
              date := s.surgery_date
              surgeon := s.surgeon_name
              duration := s.duration_minutes })
          recovery_status :=
            { days_post_operation := recoveryDays
              total_post_op_notes := postOpNotes.length
              latest_vital_signs := (postOpNotes.head?.bind (fun n => n.vital_signs)).getD emptyVitals
              latest_pain_level := ctxPainString (postOpNotes.head?.bind (fun n => n.pain_level))
              mobility_status := jsOrOO (postOpNotes.head?.map (fun n => n.mobility_status)) "Not recorded"
              wound_condition := jsOrOO (postOpNotes.head?.map (fun n => n.wound_condition)) "Not recorded"
              complications := jsOrOO (postOpNotes.head?.map (fun n => n.complications)) "None" }
          milestones :=
            { total := totalMilestones
              achieved := achievedMilestones
              progress_percentage := progressPct achievedMilestones totalMilestones
              recent_milestones := (milestones.take 5).map (fun x =>
                { type := x.milestone_type
                  description := x.milestone_description
                  achieved := x.achieved
                  target_date := x.target_date }) } }

/-! ### External-assistant adapter (`src/project/src/lib`, gemini module)

`sendMessageToGemini` wraps one `fetch` of the generative endpoint in a
`try`/`catch`; the observable outcomes of that call are a thrown network
error, a non-OK HTTP status, or a parsed body with a (possibly absent or
empty) first-candidate text. -/

/-- Observable result of the one `fetch` to the generative endpoint. -/
inductive FetchOutcome where
  /-- `response.ok` with the parsed candidate texts
  (`data.candidates[i].content.parts[0].text`). -/
  | success (candidates : List (Option String))
  /-- `response.ok` is false (non-success HTTP status). -/
  | httpError
  /-- `fetch` (or body parsing) threw: network failure. -/
  | throws
deriving DecidableEq, Repr

def FALLBACK_RESPONSE : String :=
  "I'm currently unable to reach the AI service. I can still help with general guidance, clarifying questions, or walk through patient data you provide. Could you please rephrase or add more details about your request?"

/-- `Object.keys(recovery.latest_vital_signs).length > 0` (the jsonb column
stores only present keys). -/
def vitalsPresent (v : VitalSigns) : Bool :=
  v.blood_pressure.isSome || v.heart_rate.isSome || v.temperature.isSome ||
    v.oxygen_saturation.isSome

/-- Lines accumulated in `parts` by `synthesizePatientSummary`; its input
here is always a context snapshot produced by `getPatientContext`, whose
five sections are all present, so the `context?.x` guards are truthy and
the body cannot throw. -/
def synthParts (context : Context) : List String :=
  let patient := context.patient
  let medical := context.medical_summary
  let surgeries := context.surgeries
  let recovery := context.recovery_status
  let milestones := context.milestones
  let parts : List String :=
    (["Patient: " ++ jsOrStr patient.name "Unknown"] ++
     (if patient.age ≠ 0 then ["Age: " ++ toString patient.age] else []) ++
     (if jsTruthyS patient.gender then ["Gender: " ++ patient.gender.getD ""] else []) ++
     (if jsTruthyS patient.blood_type then ["Blood type: " ++ patient.blood_type.getD ""] else []) ++
     (if patient.department ≠ "" then ["Department: " ++ patient.department] else []) ++
     (if jsTruthyS patient.status then ["Status: " ++ patient.status.getD ""] else []) ++
     (match patient.admission_date with
      | some d => ["Admission date: " ++ dateStr d]
      | none => [])) ++
    ["Latest diagnosis: " ++ jsOrStr medical.latest_diagnosis "None recorded",
     "Current medications: " ++ jsOrStr medical.current_medications "None recorded",
     "Allergies: " ++ jsOrStr medical.allergies "None recorded"] ++
    (if surgeries.isEmpty then []
     else
       let ops := (surgeries.take 5).map (fun s =>
         s.type ++ (match s.date with
           | some d => " on " ++ dateStr d
           | none => ""))
       ["Surgeries: " ++ strJoin ", " ops]) ++
    (["Days post-operation: " ++ toString recovery.days_post_operation] ++
     (let vitals := recovery.latest_vital_signs
      let vsParts : List String :=
        (if jsTruthyS vitals.blood_pressure then ["BP: " ++ vitals.blood_pressure.getD ""] else []) ++
        (if jsTruthyN vitals.heart_rate then ["HR: " ++ toString (vitals.heart_rate.getD 0)] else []) ++
        (match vitals.temperature with
         | some t => ["Temp: " ++ toString t ++ "°C"]
         | none => []) ++
        (match vitals.oxygen_saturation with
         | some sp => ["SpO2: " ++ toString sp ++ "%"]
         | none => [])
      if vitalsPresent vitals && !vsParts.isEmpty then ["Latest vitals: " ++ strJoin ", " vsParts]
      else []) ++
     (if recovery.latest_pain_level ≠ "" then ["Pain level: " ++ recovery.latest_pain_level] else []) ++
     (if recovery.mobility_status ≠ "" then ["Mobility: " ++ recovery.mobility_status] else []) ++
     (if recovery.wound_condition ≠ "" then ["Wound: " ++ recovery.wound_condition] else []) ++
     (if recovery.complications ≠ "" then ["Complications: " ++ recovery.complications] else [])) ++
    (["Milestones progress: " ++ toString milestones.progress_percentage ++ "%"] ++
     (if milestones.recent_milestones.isEmpty then []
      else
        let recent := (milestones.recent_milestones.take 3).map (fun x =>
          x.type ++ (if x.achieved then " (achieved)" else ""))
        ["Recent milestones: " ++ strJoin ", " recent])) ++
    ["If you want more specific data (vitals, medications, surgery notes), please ask for it directly."]
  parts

/-- `synthesizePatientSummary` (gemini module lines 106-170):
`parts.join('\n')`. -/
def synthesizePatientSummary (context : Context) (_message : String) : String :=
  strJoin "\n" (synthParts context)

/-- The adapter's fallback: local synthesis when a context snapshot exists,
otherwise the fixed apology string. -/
def geminiFallback (message : String) : Option Context → String
  | some c => synthesizePatientSummary c message
  | none => FALLBACK_RESPONSE

/-- `sendMessageToGemini` (lines 172-219). -/
def sendMessageToGemini (outcome : FetchOutcome) (message : String)
    (context : Option Context) : String :=
  match outcome with
  | .throws => geminiFallback message context
  | .httpError => geminiFallback message context
  | .success candidates =>
    match candidates.head? with
    | some (some text) =>
      if text ≠ "" && strTrim text ≠ "" then text
      else geminiFallback message context
    | some none => geminiFallback message context
    | none => geminiFallback message context

/-- Does the wrapped external call count as failed (non-OK status, network
error, or empty/absent candidate text)? -/
def geminiFails : FetchOutcome → Bool
  | .throws => true
  | .httpError => true
  | .success candidates =>
    match candidates.head? with
    | some (some text) => !(text ≠ "" && strTrim text ≠ "")
    | some none => true
    | none => true

/-! ### Milestone toggle (recovery-milestones component, `toggleMilestone`)

The update patch writes exactly two columns:
`{ achieved: !milestone.achieved,
   achieved_date: !milestone.achieved ? new Date().toISOString() : null }`. -/

/-- The row after `toggleMilestone` succeeds (`now` is the toggle time as an
ISO string). -/
def toggleMilestone (now : String) (m : RecoveryMilestone) : RecoveryMilestone :=
  { m with
    achieved := !m.achieved
    achieved_date := if !m.achieved then some now else none }

/-! ### `handleSend` (AIChat.tsx lines 884-962)

The send pipeline: local routing, then context assembly, then the external
call in an inner `try` block, then the chat-history insert guarded by
`if (user && context)`. The insert's row literal reads the identifier
`response`, but `const response` is declared inside the inner `try` block
whose scope has already closed, so evaluating the insert throws a
`ReferenceError` that the outer `catch` turns into the generic error
message. The block/declaration structure is embedded as data and checked by
a lexical-scope walker. -/

/-- Statements of the fragment of JS needed to model `handleSend`:
declarations, expression statements reading variables (tagged so a use site
can be named), blocks, and try/catch. -/
inductive JsStmt where
  | decl (v : String)
  | exprUse (tag : String) (vs : List String)
  | block (ss : List JsStmt)
  | tryCatch (body : List JsStmt) (handler : List JsStmt)
deriving Repr

mutual

/-- Variable reads not bound by any enclosing declaration, paired with the
tag of the statement reading them; `env` is the set of names in scope. -/
def stmtUnresolved (env : List String) : JsStmt → List String × List (String × String)
  | .decl v => (v :: env, [])
  | .exprUse tag vs => (env, (vs.filter (fun v => !env.contains v)).map (fun v => (tag, v)))
  | .block ss => (env, stmtsUnresolved env ss)
  | .tryCatch body handler =>
    (env, stmtsUnresolved env body ++ stmtsUnresolved env handler)

def stmtsUnresolved (env : List String) : List JsStmt → List (String × String)
  | [] => []
  | s :: rest =>
    let r := stmtUnresolved env s
    r.2 ++ stmtsUnresolved r.1 rest

end

/-- Names in scope at the top of `handleSend`'s outer `try` block: component
props/state/imports and the `userMessage` constant declared before the
`try`. -/
def handleSendOuterEnv : List String :=
  ["onClose", "selectedPatientId", "user", "profile", "messages", "setMessages",
   "input", "setInput", "loading", "setLoading", "supabase", "sendMessageToGemini",
   "handleLocalQuery", "getPatientContext", "getPatientPII", "surgeryInfo",
   "diseaseInfo", "userMessage"]

/-- Block/declaration structure of the outer `try` of `handleSend`
(lines 897-950): `const local`, the early-return block, `const context`,
the inner `try`/`catch` declaring `const response`, and the guarded
chat-history insert whose row literal reads `user`, `selectedPatientId`,
`userMessage`, `response` and `context`. -/
def handleSendTryBody : List JsStmt :=
  [.exprUse "call_handleLocalQuery" ["handleLocalQuery", "userMessage"],
   .decl "local",
   .block [.exprUse "append_local_reply" ["setMessages", "local", "setLoading"]],
   .exprUse "call_getPatientContext" ["getPatientContext"],
   .decl "context",
   .tryCatch
     [.exprUse "call_gemini" ["sendMessageToGemini", "userMessage", "context"],
      .decl "response",
      .exprUse "append_ai_reply" ["setMessages", "response"]]
     [.decl "aiError",
      .exprUse "append_ai_fallback" ["userMessage", "context", "setMessages", "setLoading"]],
   .exprUse "chat_history_insert"
     ["supabase", "user", "selectedPatientId", "userMessage", "response", "context"]]

/-- Unresolved variable reads of the outer `try` body. -/
def handleSendUnresolved : List (String × String) :=
  stmtsUnresolved handleSendOuterEnv handleSendTryBody

/-- Is the read of `response` at the chat-history insert lexically
resolved? -/
def chatInsertScopeOk : Bool :=
  !handleSendUnresolved.contains ("chat_history_insert", "response")

/-- A chat-history row as inserted into `chat_history`. -/
structure ChatInsert where
  user_id : String
  patient_id : Option String
  message : String
  response : String
deriving DecidableEq, Repr

/-- Result of one `handleSend` run: the assistant messages appended to the
transcript (the user's own message is not repeated here) and the
chat-history rows inserted. -/
structure SendResult where
  displayed : List String
  inserts : List ChatInsert
deriving DecidableEq, Repr

/-- The outer catch's message: `error.message` of the `ReferenceError`
raised by the unresolved identifier, spliced into the generic template. -/
def referenceErrorMessage : String := "response is not defined"

def topLevelErrorText (safeMessage : String) : String :=
  "I encountered an error processing your request: " ++ safeMessage ++
    ". Please check the console for details."

/-- `handleSend` after the user message is queued (lines 897-961).
`sendMessageToGemini` is total (it catches everything), so the inner
`catch (aiError)` never runs; the insert step evaluates its row literal,
which throws a `ReferenceError` when the read of `response` is out of scope
(`chatInsertScopeOk = false`), and the outer `catch` then appends the
generic error message. -/
def handleSend (env : Session) (db : DB) (outcome : FetchOutcome)
    (userMessage : String) : SendResult :=
  match handleLocalQuery env db userMessage with
  | some localReply => { displayed := [localReply], inserts := [] }
  | none =>
    let context := getPatientContext env db
    let response := sendMessageToGemini outcome userMessage context
    match env.user, context with
    | some uid, some _ =>
      if chatInsertScopeOk then
        { displayed := [response]
          inserts := [{ user_id := uid
                        patient_id := env.selectedPatientId
                        message := userMessage
                        response := response }] }
      else
        { displayed := [response, topLevelErrorText referenceErrorMessage]
          inserts := [] }
    | _, _ => { displayed := [response], inserts := [] }

/-! ### The router as an ordered first-match rule list (spec §4.1)

The specification describes `handleLocalQuery` as an ordered list of
`(pattern, handler)` pairs evaluated top to bottom, the first rule whose
pattern matches producing the response. The patterns are syntactic (message
and session only); each handler is the rule body defined above. -/

structure QueryRule where
  pattern : Session → String → Bool
  handler : Session → DB → String → Option String

/-- First-match evaluation of an ordered rule list. -/
def applyRules : List QueryRule → Session → DB → String → Option String
  | [], _, _, _ => none
  | r :: rs, env, db, msg =>
    if r.pattern env msg then r.handler env db msg else applyRules rs env db msg

/-- Rule 1: PII request keywords. -/
def piiRule : QueryRule :=
  { pattern := fun _ msg => piiTest (normMsg msg)
    handler := fun env db msg => piiHandlerCore env db (normMsg msg) }

/-- Rule 2: disease-table substring. -/
def diseaseRule : QueryRule :=
  { pattern := fun _ msg => (diseaseSubstrHit (normMsg msg)).isSome
    handler := fun _ _ msg => (diseaseSubstrHit (normMsg msg)).map diseaseText }

/-- Rule 3: total patient count. -/
def countRule : QueryRule :=
  { pattern := fun _ msg => countTest (normMsg msg)
    handler := fun _ db _ => countCore db }

/-- Rule 4: full details by name. -/
def detailsRule : QueryRule :=
  { pattern := fun _ msg => (detailsNameMatch msg).isSome
    handler := fun env db msg =>
      match detailsNameMatch msg with
      | some name => if name = "" then none else fullDetailsCore env db name
      | none => none }

/-- Rule 5: name plus action word. -/
def nameActionRule : QueryRule :=
  { pattern := fun _ msg => (nameActionMatch msg).isSome
    handler := fun env db msg =>
      match nameActionMatch msg with
      | some (rawName, action) => nameActionCore env db (strTrim rawName) action
      | none => none }

/-- Rule 6: department listing. -/
def deptRule : QueryRule :=
  { pattern := fun _ msg =>
      (deptMatch (normMsg msg)).isSome && deptListTest (normMsg msg)
    handler := fun _ db msg =>
      match deptMatch (normMsg msg) with
      | some dept => deptCore db dept
      | none => none }

/-- Rule 7: single-field query for the selected patient. -/
def singleFieldRule : QueryRule :=
  { pattern := fun env msg =>
      env.selectedPatientId.isSome && singleFieldTest (normMsg msg)
    handler := fun env db msg =>
      match singleFieldBranch env db (normMsg msg) with
      | some r => r
      | none => none }

/-- Rule 8: educational topic lookup (a match with a whitespace-only topic
does not fire; the source falls through in that case). -/
def teachRule : QueryRule :=
  { pattern := fun _ msg =>
      match teachCapture msg with
      | some topic => topic ≠ ""
      | none => false
    handler := fun _ _ msg => (teachCapture msg).map teachAnswer }

/-- Rule 9: name+age shorthand. -/
def nameAgeRule : QueryRule :=
  { pattern := fun _ msg => (nameAgeMatch msg).isSome
    handler := fun env db msg =>
      match nameAgeMatch msg with
      | some rawName => nameAgeCore env db (strTrim rawName)
      | none => none }

/-- Rule 10: find/search/show patient. -/
def searchRule : QueryRule :=
  { pattern := fun _ msg => (searchPatientName (normMsg msg)).isSome
    handler := fun env db msg =>
      match searchPatientName (normMsg msg) with
      | some name => searchCore env db name
      | none => none }

/-- Rule 11: lookups scoped to the selected patient. -/
def selectedRule : QueryRule :=
  { pattern := fun env _ => env.selectedPatientId.isSome
    handler := fun env db msg => selectedBranch env db (normMsg msg) }

/-- The ordered rule list of spec §4.1. -/
def queryRules : List QueryRule :=
  [piiRule, diseaseRule, countRule, detailsRule, nameActionRule, deptRule,
   singleFieldRule, teachRule, nameAgeRule, searchRule, selectedRule]

/-! ### First-match refinement: the staged router equals the rule list -/

/-- When the rule-7 word test holds, the inner if-chain of rule 7 always
returns (each `\b`-keyword of the trigger implies one of the chain's
substring tests), so rule 7 never actually falls through to rule 8. -/
theorem singleFieldAnswer_isSome (cy : Nat) (p : Patient) (m : String)
    (h : singleFieldTest m = true) : (singleFieldAnswer cy p m).isSome = true := by
  have h5 : containsAnySub m ["age", "how old"] = true ∨
      containsAnySub m ["blood group", "blood type"] = true ∨
      containsAnySub m ["phone", "contact"] = true ∨
      strContains m "email" = true ∨ strContains m "address" = true := by
    simp only [singleFieldTest, containsAnyWB, singleFieldWords, List.any_cons,
      List.any_nil, Bool.or_eq_true, Bool.or_false] at h
    rcases h with h | h | h | h | h | h | h | h
    · exact Or.inl (by simp [containsAnySub, containsWB_sub h])
    · exact Or.inl (by simp [containsAnySub, containsWB_sub h])
    · exact Or.inr (Or.inl (by simp [containsAnySub, containsWB_sub h]))
    · exact Or.inr (Or.inl (by simp [containsAnySub, containsWB_sub h]))
    · exact Or.inr (Or.inr (Or.inl (by simp [containsAnySub, containsWB_sub h])))
    · exact Or.inr (Or.inr (Or.inl (by simp [containsAnySub, containsWB_sub h])))
    · exact Or.inr (Or.inr (Or.inr (Or.inl (containsWB_sub h))))
    · exact Or.inr (Or.inr (Or.inr (Or.inr (containsWB_sub h))))
  unfold singleFieldAnswer
  rcases h5 with h1 | h2 | h3 | h4 | hA <;> repeat' split <;> simp_all

theorem localQuery11_eq (env : Session) (db : DB) (msg : String) :
    localQuery11 env db msg (normMsg msg) = applyRules [selectedRule] env db msg := by
  unfold localQuery11
  cases h : env.selectedPatientId with
  | none => simp [applyRules, selectedRule, selectedBranch, h]
  | some pid => simp [applyRules, selectedRule, selectedBranch, h]

theorem localQuery10_eq (env : Session) (db : DB) (msg : String) :
    localQuery10 env db msg (normMsg msg) =
      applyRules [searchRule, selectedRule] env db msg := by
  unfold localQuery10 applyRules
  cases h : searchPatientName (normMsg msg) with
  | some name => simp [searchRule, h]
  | none => simpa [searchRule, h] using localQuery11_eq env db msg

theorem localQuery9_eq (env : Session) (db : DB) (msg : String) :
    localQuery9 env db msg (normMsg msg) =
      applyRules [nameAgeRule, searchRule, selectedRule] env db msg := by
  unfold localQuery9
  rw [show applyRules [nameAgeRule, searchRule, selectedRule] env db msg =
      if (nameAgeMatch msg).isSome then
        (match nameAgeMatch msg with
         | some rawName => nameAgeCore env db (strTrim rawName)
         | none => none)
      else applyRules [searchRule, selectedRule] env db msg from rfl]
  cases h : nameAgeMatch msg with
  | some rawName => simp [h]
  | none => simpa [h] using localQuery10_eq env db msg

theorem localQuery8_eq (env : Session) (db : DB) (msg : String) :
    localQuery8 env db msg (normMsg msg) =
      applyRules [teachRule, nameAgeRule, searchRule, selectedRule] env db msg := by
  unfold localQuery8
  rw [show applyRules [teachRule, nameAgeRule, searchRule, selectedRule] env db msg =
      if (match teachCapture msg with
          | some topic => topic ≠ ""
          | none => false : Bool) then (teachCapture msg).map teachAnswer
      else applyRules [nameAgeRule, searchRule, selectedRule] env db msg from rfl]
  cases h : teachCapture msg with
  | some topic =>
    by_cases ht : topic = ""
    · simpa [h, ht] using localQuery9_eq env db msg
    · simp [h, ht]
  | none => simpa [h] using localQuery9_eq env db msg

theorem localQuery7_eq (env : Session) (db : DB) (msg : String) :
    localQuery7 env db msg (normMsg msg) =
      applyRules [singleFieldRule, teachRule, nameAgeRule, searchRule, selectedRule]
        env db msg := by
  unfold localQuery7
  rw [show applyRules [singleFieldRule, teachRule, nameAgeRule, searchRule, selectedRule]
        env db msg =
      if env.selectedPatientId.isSome && singleFieldTest (normMsg msg) then
        (match singleFieldBranch env db (normMsg msg) with
         | some r => r
         | none => none)
      else applyRules [teachRule, nameAgeRule, searchRule, selectedRule] env db msg from rfl]
  by_cases hp : (env.selectedPatientId.isSome && singleFieldTest (normMsg msg)) = true
  · simp only [hp, if_true]
    cases hb : singleFieldBranch env db (normMsg msg) with
    | some r => rfl
    | none =>
      exfalso
      simp only [Bool.and_eq_true, Option.isSome_iff_exists] at hp
      obtain ⟨⟨pid, hpid⟩, htest⟩ := hp
      unfold singleFieldBranch at hb
      rw [hpid] at hb
      cases hsel : selPatientById db pid with
      | error e => simp [hsel] at hb
      | ok p =>
        simp only [hsel] at hb
        cases ha : singleFieldAnswer env.currentYear p (normMsg msg) with
        | some r => simp [ha] at hb
        | none =>
          have hx := singleFieldAnswer_isSome env.currentYear p (normMsg msg) htest
          simp [ha] at hx
  · simp only [hp, if_false, Bool.not_eq_true] at *
    simpa [hp] using localQuery8_eq env db msg

theorem localQuery6_eq (env : Session) (db : DB) (msg : String) :
    localQuery6 env db msg (normMsg msg) =
      applyRules [deptRule, singleFieldRule, teachRule, nameAgeRule, searchRule,
        selectedRule] env db msg := by
  unfold localQuery6
  rw [show applyRules [deptRule, singleFieldRule, teachRule, nameAgeRule, searchRule,
        selectedRule] env db msg =
      if (deptMatch (normMsg msg)).isSome && deptListTest (normMsg msg) then
        (match deptMatch (normMsg msg) with
         | some dept => deptCore db dept
         | none => none)
      else applyRules [singleFieldRule, teachRule, nameAgeRule, searchRule, selectedRule]
        env db msg from rfl]
  cases h : deptMatch (normMsg msg) with
  | some dept =>
    by_cases hl : deptListTest (normMsg msg) = true
    · simp [h, hl]
    · simp only [Bool.not_eq_true] at hl
      simpa [h, hl] using localQuery7_eq env db msg
  | none => simpa [h] using localQuery7_eq env db msg

theorem localQuery5_eq (env : Session) (db : DB) (msg : String) :
    localQuery5 env db msg (normMsg msg) =
      applyRules [nameActionRule, deptRule, singleFieldRule, teachRule, nameAgeRule,
        searchRule, selectedRule] env db msg := by
  unfold localQuery5
  rw [show applyRules [nameActionRule, deptRule, singleFieldRule, teachRule, nameAgeRule,
        searchRule, selectedRule] env db msg =
      if (nameActionMatch msg).isSome then
        (match nameActionMatch msg with
         | some (rawName, action) => nameActionCore env db (strTrim rawName) action
         | none => none)
      else applyRules [deptRule, singleFieldRule, teachRule, nameAgeRule, searchRule,
        selectedRule] env db msg from rfl]
  cases h : nameActionMatch msg with
  | some r => simp [h]
  | none => simpa [h] using localQuery6_eq env db msg

theorem localQuery4_eq (env : Session) (db : DB) (msg : String) :
    localQuery4 env db msg (normMsg msg) =
      applyRules [detailsRule, nameActionRule, deptRule, singleFieldRule, teachRule,
        nameAgeRule, searchRule, selectedRule] env db msg := by
  unfold localQuery4
  rw [show applyRules [detailsRule, nameActionRule, deptRule, singleFieldRule, teachRule,
        nameAgeRule, searchRule, selectedRule] env db msg =
      if (detailsNameMatch msg).isSome then
        (match detailsNameMatch msg with
         | some name => if name = "" then none else fullDetailsCore env db name
         | none => none)
      else applyRules [nameActionRule, deptRule, singleFieldRule, teachRule, nameAgeRule,
        searchRule, selectedRule] env db msg from rfl]
  cases h : detailsNameMatch msg with
  | some name => simp [h]
  | none => simpa [h] using localQuery5_eq env db msg

theorem localQuery3_eq (env : Session) (db : DB) (msg : String) :
    localQuery3 env db msg (normMsg msg) =
      applyRules [countRule, detailsRule, nameActionRule, deptRule, singleFieldRule,
        teachRule, nameAgeRule, searchRule, selectedRule] env db msg := by
  unfold localQuery3
  rw [show applyRules [countRule, detailsRule, nameActionRule, deptRule, singleFieldRule,
        teachRule, nameAgeRule, searchRule, selectedRule] env db msg =
      if countTest (normMsg msg) then countCore db
      else applyRules [detailsRule, nameActionRule, deptRule, singleFieldRule, teachRule,
        nameAgeRule, searchRule, selectedRule] env db msg from rfl]
  by_cases h : countTest (normMsg msg) = true
  · simp [h]
  · simp only [Bool.not_eq_true] at h
    simpa [h] using localQuery4_eq env db msg

theorem localQuery2_eq (env : Session) (db : DB) (msg : String) :
    localQuery2 env db msg (normMsg msg) =
      applyRules [diseaseRule, countRule, detailsRule, nameActionRule, deptRule,
        singleFieldRule, teachRule, nameAgeRule, searchRule, selectedRule] env db msg := by
  unfold localQuery2
  rw [show applyRules [diseaseRule, countRule, detailsRule, nameActionRule, deptRule,
        singleFieldRule, teachRule, nameAgeRule, searchRule, selectedRule] env db msg =
      if (diseaseSubstrHit (normMsg msg)).isSome then
        (diseaseSubstrHit (normMsg msg)).map diseaseText
      else applyRules [countRule, detailsRule, nameActionRule, deptRule, singleFieldRule,
        teachRule, nameAgeRule, searchRule, selectedRule] env db msg from rfl]
  cases h : diseaseSubstrHit (normMsg msg) with
  | some e => simp [h]
  | none => simpa [h] using localQuery3_eq env db msg

theorem localQuery1_eq (env : Session) (db : DB) (msg : String) :
    localQuery1 env db msg (normMsg msg) = applyRules queryRules env db msg := by
  unfold localQuery1 queryRules
  rw [show applyRules [piiRule, diseaseRule, countRule, detailsRule, nameActionRule,
        deptRule, singleFieldRule, teachRule, nameAgeRule, searchRule, selectedRule]
        env db msg =
      if piiTest (normMsg msg) then piiHandlerCore env db (normMsg msg)
      else applyRules [diseaseRule, countRule, detailsRule, nameActionRule, deptRule,
        singleFieldRule, teachRule, nameAgeRule, searchRule, selectedRule] env db msg
      from rfl]
  by_cases h : piiTest (normMsg msg) = true
  · simp [h]
  · simp only [Bool.not_eq_true] at h
    simpa [h] using localQuery2_eq env db msg

/-! ### Substring-containment helper lemmas -/

theorem strContains_empty (s : String) : strContains s "" = true := by
  unfold strContains
  cases h : s.data with
  | nil => simp [subAux, hasPre]
  | cons c rest => simp [subAux, hasPre]

theorem strContains_of_infix {s w : String} (h : w.data <:+: s.data) :
    strContains s w = true := (subAux_iff_infixOf w.data s.data).mpr h

theorem infix_of_strContains {s w : String} (h : strContains s w = true) :
    w.data <:+: s.data := (subAux_iff_infixOf w.data s.data).mp h

/-- Every member of a joined list is an infix of the join. -/
theorem strJoin_mem_infixOf {sep p : String} {parts : List String}
    (h : p ∈ parts) : p.data <:+: (strJoin sep parts).data := by
  induction parts with
  | nil => simp at h
  | cons x xs ih =>
    cases xs with
    | nil =>
      simp only [List.mem_singleton] at h
      subst h
      exact List.infix_rfl
    | cons y ys =>
      rcases List.mem_cons.mp h with rfl | hmem
      · show p.data <:+: (p ++ sep ++ strJoin sep (y :: ys)).data
        rw [String.data_append, String.data_append]
        exact ((List.prefix_append p.data sep.data).trans
          (List.prefix_append _ _)).isInfix
      · show p.data <:+: (x ++ sep ++ strJoin sep (y :: ys)).data
        rw [String.data_append, String.data_append]
        exact (ih hmem).trans
          ((List.suffix_append (x.data ++ sep.data) _).isInfix)

/-- A suffix built by appending is contained in the whole. -/
theorem strContains_append_right (a w : String) : strContains (a ++ w) w = true := by
  apply strContains_of_infix
  rw [String.data_append]
  exact (List.suffix_append a.data w.data).isInfix

/-! ### Claim theorems -/

/-- C1: `handleLocalQuery` evaluates its rules in the fixed listed order
(PII, disease table, patient count, full details by name, name+action,
department listing, selected-patient single field, teach-me-about, name+age,
find/search patient, selected-patient lookups): for every session, storage
state and message it computes exactly the first-match evaluation of that
ordered rule list, so the first rule whose pattern matches produces the
response even when the text would also satisfy a later rule. -/
theorem handleLocalQuery_first_match (env : Session) (db : DB) (msg : String) :
    handleLocalQuery env db msg = applyRules queryRules env db msg := by
  unfold handleLocalQuery
  exact localQuery1_eq env db msg

/-- C8: toggling a recovery milestone flips the achieved flag, sets
`achieved_date` to the toggle time exactly when the new flag is achieved
(and to `null` when it is cleared), and leaves every other field of the row
unchanged. -/
theorem toggleMilestone_spec (now : String) (m : RecoveryMilestone) :
    (toggleMilestone now m).achieved = !m.achieved ∧
    (toggleMilestone now m).achieved_date =
      (if m.achieved then none else some now) ∧
    (toggleMilestone now m).id = m.id ∧
    (toggleMilestone now m).patient_id = m.patient_id ∧
    (toggleMilestone now m).milestone_type = m.milestone_type ∧
    (toggleMilestone now m).milestone_description = m.milestone_description ∧
    (toggleMilestone now m).target_date = m.target_date ∧
    (toggleMilestone now m).notes = m.notes ∧
    (toggleMilestone now m).created_at = m.created_at := by
  unfold toggleMilestone
  refine ⟨rfl, ?_, rfl, rfl, rfl, rfl, rfl, rfl, rfl⟩
  cases h : m.achieved <;> simp [h]

/-- The local synthesis always contains the snapshot's patient name. -/
theorem synth_contains_name (ctx : Context) (message : String) :
    strContains (synthesizePatientSummary ctx message) ctx.patient.name = true := by
  by_cases hn : ctx.patient.name = ""
  · rw [hn]; exact strContains_empty _
  · unfold synthesizePatientSummary
    apply strContains_of_infix
    have hline : ("Patient: " ++ jsOrStr ctx.patient.name "Unknown") ∈
        (synthParts ctx) := by
      simp [synthParts, List.mem_append]
    refine List.IsInfix.trans ?_ (strJoin_mem_infixOf hline)
    rw [jsOrStr, if_neg hn]
    exact infix_of_strContains (strContains_append_right "Patient: " ctx.patient.name)

/-- The local synthesis always contains the snapshot's latest diagnosis. -/
theorem synth_contains_diag (ctx : Context) (message : String) :
    strContains (synthesizePatientSummary ctx message)
      ctx.medical_summary.latest_diagnosis = true := by
  by_cases hn : ctx.medical_summary.latest_diagnosis = ""
  · rw [hn]; exact strContains_empty _
  · unfold synthesizePatientSummary
    apply strContains_of_infix
    have hline : ("Latest diagnosis: " ++
        jsOrStr ctx.medical_summary.latest_diagnosis "None recorded") ∈
        (synthParts ctx) := by
      simp [synthParts, List.mem_append]
    refine List.IsInfix.trans ?_ (strJoin_mem_infixOf hline)
    rw [jsOrStr, if_neg hn]
    exact infix_of_strContains
      (strContains_append_right "Latest diagnosis: " ctx.medical_summary.latest_diagnosis)

/-- C2: `sendMessageToGemini` never throws (it is a total function of the
fetch outcome); whenever the external call fails — thrown network error,
non-success HTTP status, or empty/absent candidate text — it returns the
deterministic local synthesis of the supplied context snapshot, a text
containing the patient's name and the latest diagnosis, and returns the
fixed apology string `FALLBACK_RESPONSE` when no snapshot was supplied. -/
theorem sendMessageToGemini_fallback (outcome : FetchOutcome) (message : String)
    (h : geminiFails outcome = true) :
    (∀ ctx : Context,
      sendMessageToGemini outcome message (some ctx) =
        synthesizePatientSummary ctx message ∧
      strContains (sendMessageToGemini outcome message (some ctx))
        ctx.patient.name = true ∧
      strContains (sendMessageToGemini outcome message (some ctx))
        ctx.medical_summary.latest_diagnosis = true) ∧
    sendMessageToGemini outcome message none = FALLBACK_RESPONSE := by
  have heq : ∀ c : Option Context,
      sendMessageToGemini outcome message c = geminiFallback message c := by
    intro c
    cases outcome with
    | throws => rfl
    | httpError => rfl
    | success candidates =>
      simp only [sendMessageToGemini, geminiFails] at h ⊢
      cases hc : candidates.head? with
      | none => simp [hc]
      | some t =>
        cases t with
        | none => simp [hc]
        | some text =>
          simp only [hc, Bool.not_eq_true'] at h
          simp only [hc]
          have hcond : ¬ ((decide (text ≠ "") && decide (strTrim text ≠ "")) = true) := by
            rw [h]; simp
          rw [if_neg hcond]
  refine ⟨fun ctx => ⟨heq (some ctx), ?_, ?_⟩, heq none⟩
  · rw [heq (some ctx)]
    exact synth_contains_name ctx message
  · rw [heq (some ctx)]
    exact synth_contains_diag ctx message

/-! ### Concrete fixtures for witnesses and counterexamples -/

def egPriya : Patient :=
  { id := "p1", full_name := "Priya Sharma", date_of_birth := some ⟨1990, 5, 1⟩,
    gender := some "female", blood_type := some "O+", phone := some "555-1234",
    email := some "priya@example.com", address := some "12 Main St",
    emergency_contact_name := none, emergency_contact_phone := none,
    department := "cardiology", admission_date := some ⟨2025, 1, 2⟩,
    status := some "admitted", latest_diagnosis := none, created_at := 10 }

def egPriya2 : Patient :=
  { egPriya with
    id := "p2"
    full_name := "Priya Patel"
    phone := some "555-9999"
    created_at := 20 }

def egAsha : Patient :=
  { egPriya with
    id := "p3"
    full_name := "Asha Rao"
    phone := some "555-0000"
    created_at := 5 }

/-- Empty storage, no failures. -/
def egDbEmpty : DB := ⟨[], [], [], [], [], false, false, false, false, false⟩

/-- One patient. -/
def egDb1 : DB := { egDbEmpty with patients := [egPriya] }

/-- Two patients whose names both contain "priya". -/
def egDb2 : DB := { egDbEmpty with patients := [egPriya, egPriya2] }

/-- Three cardiology patients. -/
def egDb3 : DB := { egDbEmpty with patients := [egPriya, egPriya2, egAsha] }

/-- One patient, but the medical-records read fails. -/
def egDbRecErr : DB := { egDb1 with errRecords := true }

def egEnvAnon : Session := ⟨none, none, 2025⟩
def egEnvAuth : Session := ⟨some "u1", none, 2025⟩
def egEnvSel : Session := ⟨some "u1", some "p1", 2025⟩

/-- One post-operative note with a recorded pain level of 0. -/
def egNoteZero : PostOperativeNote :=
  { id := "n1", patient_id := "p1", surgery_id := none, day_number := 3,
    vital_signs := some { blood_pressure := some "120/80", heart_rate := some 72,
                          temperature := none, oxygen_saturation := some 98 },
    pain_level := some 0, mobility_status := some "walking",
    wound_condition := some "clean", complications := none,
    recovery_notes := none, created_at := 30 }

def egDbNote : DB := { egDb1 with post_operative_notes := [egNoteZero] }

/-! ### C6: context-assembly failure semantics -/

/-- C6 counterexample: with the selected patient present but the
medical-records read failing, `getPatientContext` still returns a context
(with an empty records section) — a failing non-patient read does not abort
context assembly, contradicting the claim that a failure of any one of the
five reads yields `null`. -/
theorem getPatientContext_partial_failure_counterexample :
    egDbRecErr.errRecords = true ∧
    getPatientContext egEnvSel egDbRecErr ≠ none ∧
    (getPatientContext egEnvSel egDbRecErr).map
      (fun c => c.medical_summary.total_records) = some 0 := by
  refine ⟨rfl, ?_, rfl⟩
  intro h
  simp [getPatientContext, egEnvSel, egDbRecErr, egDb1, egDbEmpty, selPatientById,
    egPriya] at h

/-- C6 as the code implements it: context assembly is aborted — result
`none`, never a crash — exactly when no patient is selected or the patient
read itself fails (a failing read or a missing row); failures of the other
four reads do not abort (they degrade to empty sections, as the
counterexample shows). -/
theorem getPatientContext_none_iff (env : Session) (db : DB) :
    getPatientContext env db = none ↔
      (env.selectedPatientId = none ∨
        ∃ pid, env.selectedPatientId = some pid ∧
          (selPatientById db pid).toOption = none) := by
  unfold getPatientContext
  cases hsel : env.selectedPatientId with
  | none => simp
  | some pid =>
    cases hp : selPatientById db pid with
    | error e => simp [hp, Except.toOption]
    | ok p => simp [hp, Except.toOption]

/-! ### C9: a recorded pain level of 0 reads as "Not recorded" -/

/-- Route of the message `"vitals"` with a selected patient: rules 1-10 do
not match and rule 11's vitals sub-rule fires. -/
theorem handleLocalQuery_vitals (env : Session) (db : DB) (pid : String)
    (hsel : env.selectedPatientId = some pid) :
    handleLocalQuery env db "vitals" = vitalsCore db pid := by
  unfold handleLocalQuery localQuery1 localQuery2 localQuery3 localQuery4
    localQuery5 localQuery6 localQuery7 localQuery8 localQuery9 localQuery10
    localQuery11
  rw [show normMsg "vitals" = "vitals" from rfl]
  rw [show piiTest "vitals" = false from rfl]
  rw [show diseaseSubstrHit "vitals" = none from rfl]
  rw [show countTest "vitals" = false from rfl]
  rw [show detailsNameMatch "vitals" = none from rfl]
  rw [show nameActionMatch "vitals" = none from rfl]
  rw [show deptMatch "vitals" = none from rfl]
  rw [show singleFieldTest "vitals" = false from rfl]
  rw [show teachCapture "vitals" = none from rfl]
  rw [show nameAgeMatch "vitals" = none from rfl]
  rw [show searchPatientName "vitals" = none from rfl]
  simp only [Bool.and_false, Bool.false_eq_true, if_false]
  unfold selectedBranch
  rw [hsel]
  rw [show allInfoTest "vitals" = false from rfl]
  rw [show conditionTest "vitals" = false from rfl]
  rw [show surgeryTest "vitals" = false from rfl]
  rw [show vitalsTest "vitals" = true from rfl]
  simp

/-- C9: a valid post-operative note whose `pain_level` is 0 (inside the
documented 0-10 range) is reported as not recorded: the context snapshot's
`latest_pain_level` is the string "Not recorded", and the vitals lookup of
the assistant renders the note exactly as it would render the same note
with no pain level at all (the pain line is omitted), because both sites
test the value for truthiness rather than presence. -/
theorem painLevel_zero_not_recorded (env : Session) (db : DB) (pid : String)
    (note : PostOperativeNote) (rest : List PostOperativeNote) (ctx : Context)
    (hsel : env.selectedPatientId = some pid)
    (hpain : note.pain_level = some 0) :
    (selNotesDesc db pid (some 5) = .ok (note :: rest) →
      handleLocalQuery env db "vitals" =
        some ("Latest post-op note (day " ++ toString note.day_number ++ "):\n" ++
          strJoin "\n" (vitalsLines { note with pain_level := none }))) ∧
    (selNotesDesc db pid none = .ok (note :: rest) →
      getPatientContext env db = some ctx →
      ctx.recovery_status.latest_pain_level = "Not recorded") := by
  have hlines : vitalsLines note = vitalsLines { note with pain_level := none } := by
    unfold vitalsLines
    simp [hpain, jsTruthyN]
  constructor
  · intro hnotes
    rw [handleLocalQuery_vitals env db pid hsel]
    unfold vitalsCore
    rw [hnotes, ← hlines]
  · intro hnotes hctx
    unfold getPatientContext at hctx
    simp only [hsel] at hctx
    cases hp : selPatientById db pid with
    | error e => simp [hp] at hctx
    | ok p =>
      simp only [hp] at hctx
      have h := Option.some.inj hctx
      rw [← h]
      simp [hnotes, ctxPainString, Except.toOption, hpain]

/-! ### C7: PII gating -/

/-- C7: for every message containing a PII keyword, the PII rule fires
first; with no authenticated user the response is the fixed denial string —
for every storage state, so no patient data influences or enters the
response; with an authenticated user the request resolves against the
selected patient or a name extracted from the text, and when neither yields
a patient context (no selection and no extractable name; or a name that
matches no row; or a selected patient whose PII read fails) the response is
a denial/not-found message, never contact data. -/
theorem pii_gating (env : Session) (db : DB) (msg : String)
    (hpii : piiTest (normMsg msg) = true) :
    (env.user = none →
      handleLocalQuery env db msg =
        some "I cannot provide personal contact details unless you are signed in with appropriate access.") ∧
    (∀ u, env.user = some u → env.selectedPatientId = none →
      extractPIIName (normMsg msg) = none →
      handleLocalQuery env db msg =
        some "Please select a patient or include a patient name when requesting contact details.") ∧
    (∀ u name, env.user = some u → env.selectedPatientId = none →
      extractPIIName (normMsg msg) = some name →
      selPatientsByName db name 10 = .ok [] →
      handleLocalQuery env db msg =
        some ("No patients found matching \"" ++ name ++ "\".")) ∧
    (∀ u pid, env.user = some u → env.selectedPatientId = some pid →
      getPatientPII db pid = none →
      handleLocalQuery env db msg =
        some "No contact information available for the selected patient.") := by
  have hfire : handleLocalQuery env db msg = piiHandlerCore env db (normMsg msg) := by
    unfold handleLocalQuery localQuery1
    rw [hpii]
    simp
  refine ⟨?_, ?_, ?_, ?_⟩
  · intro hu
    rw [hfire]
    unfold piiHandlerCore
    simp [hu]
  · intro u hu hsel hname
    rw [hfire]
    unfold piiHandlerCore
    simp [hu, hsel, hname]
  · intro u name hu hsel hname hsearch
    rw [hfire]
    unfold piiHandlerCore
    simp [hu, hsel, hname, hsearch]
  · intro u pid hu hsel hpp
    rw [hfire]
    unfold piiHandlerCore
    simp [hu, hsel, hpp]

/-! ### C10: the out-of-scope `response` at the chat-history insert -/

/-- C10: in `handleSend`, the chat-history insert reads the identifier
`response` outside the inner `try` block that declared it (the lexical-scope
walk over the embedded block structure reports the read as unresolved), so
whenever the external call returns normally and both an authenticated user
and a patient context exist, the insert throws, nothing is written to
`chat_history`, and the user is shown the top-level "error processing your
request" message after the assistant's reply. -/
theorem handleSend_insert_out_of_scope :
    chatInsertScopeOk = false ∧
    handleSendUnresolved = [("chat_history_insert", "response")] ∧
    ∀ (env : Session) (db : DB) (outcome : FetchOutcome) (msg uid : String),
      env.user = some uid →
      handleLocalQuery env db msg = none →
      (getPatientContext env db).isSome = true →
      (handleSend env db outcome msg).inserts = [] ∧
      (handleSend env db outcome msg).displayed =
        [sendMessageToGemini outcome msg (getPatientContext env db),
         topLevelErrorText referenceErrorMessage] := by
  refine ⟨by decide, by decide, ?_⟩
  intro env db outcome msg uid huser hlocal hctx
  cases hc : getPatientContext env db with
  | none => rw [hc] at hctx; exact absurd hctx (by simp)
  | some c =>
    unfold handleSend
    simp [hlocal, hc, huser, show chatInsertScopeOk = false from by decide]

/-! ### Sorting and listing helper lemmas -/

theorem sortDescBy_perm {α : Type} (key : α → Nat) (l : List α) :
    (sortDescBy key l).Perm l := List.perm_insertionSort _ l

theorem sortDescBy_length {α : Type} (key : α → Nat) (l : List α) :
    (sortDescBy key l).length = l.length := (sortDescBy_perm key l).length_eq

theorem sortDescBy_pairwise {α : Type} (key : α → Nat) (l : List α) :
    (sortDescBy key l).Pairwise (fun a b => key b ≤ key a) := by
  haveI : IsTotal α (fun a b => key b ≤ key a) :=
    ⟨fun a b => Nat.le_total (key b) (key a)⟩
  haveI : IsTrans α (fun a b => key b ≤ key a) :=
    ⟨fun _ _ _ hab hbc => le_trans hbc hab⟩
  exact List.sorted_insertionSort _ l

/-- A patient name occurring in one line of a bullet listing occurs in the
assembled `header ++ join(lines)` response. -/
theorem contains_name_in_listing {header sep : String} {rows : List Patient}
    {line : Patient → String} {tailF : Patient → String}
    (hline : ∀ q, line q = "• " ++ q.full_name ++ tailF q)
    {p : Patient} (hp : p ∈ rows) :
    strContains (header ++ strJoin sep (rows.map line)) p.full_name = true := by
  apply strContains_of_infix
  have h1 : p.full_name.data <:+: (line p).data := by
    rw [hline p, String.data_append, String.data_append]
    exact List.infix_append _ _ _
  have h2 : (line p).data <:+: (strJoin sep (rows.map line)).data :=
    strJoin_mem_infixOf (List.mem_map_of_mem line hp)
  have h3 : (strJoin sep (rows.map line)).data <:+:
      (header ++ strJoin sep (rows.map line)).data := by
    rw [String.data_append]
    exact (List.suffix_append _ _).isInfix
  exact (h1.trans h2).trans h3

/-- The same with a trailer appended after the listing. -/
theorem contains_name_in_listing_trailer {header sep trailer : String}
    {rows : List Patient} {line : Patient → String} {tailF : Patient → String}
    (hline : ∀ q, line q = "• " ++ q.full_name ++ tailF q)
    {p : Patient} (hp : p ∈ rows) :
    strContains (header ++ strJoin sep (rows.map line) ++ trailer)
      p.full_name = true := by
  apply strContains_of_infix
  have h1 : p.full_name.data <:+: (line p).data := by
    rw [hline p, String.data_append, String.data_append]
    exact List.infix_append _ _ _
  have h2 : (line p).data <:+: (strJoin sep (rows.map line)).data :=
    strJoin_mem_infixOf (List.mem_map_of_mem line hp)
  have h3 : (strJoin sep (rows.map line)).data <:+:
      (header ++ strJoin sep (rows.map line) ++ trailer).data := by
    rw [String.data_append, String.data_append]
    exact List.infix_append _ _ _
  exact (h1.trans h2).trans h3

/-! ### C5: the "Priya age" scenario -/

/-- The message "Priya age" is captured by the rule-5 name+action matcher
(name "priya", action "age") before the rule-9 name+age shorthand can see
it. -/
theorem handleLocalQuery_priyaAge (env : Session) (db : DB) :
    handleLocalQuery env db "Priya age" = nameActionCore env db "Priya" "age" := by
  rfl

/-- C5 counterexample: with exactly one stored patient matching "Priya"
(full name "Priya Sharma", date of birth 1990-05-01) and current year 2025,
the response to "Priya age" is not the bare string
"Priya Sharma — Age: 35": the rule-5 age branch appends a DOB suffix. -/
theorem priyaAge_counterexample :
    handleLocalQuery egEnvAnon egDb1 "Priya age" =
      some "Priya Sharma — Age: 35 (DOB: 5/1/1990)" ∧
    handleLocalQuery egEnvAnon egDb1 "Priya age" ≠
      some "Priya Sharma — Age: 35" := by
  constructor
  · rfl
  · decide

/-- C5 amended: for the input "Priya age" with exactly one stored patient
whose name contains "priya" (full name "Priya Sharma", dob 1990-05-01), the
response is "Priya Sharma — Age: <currentYear-1990> (DOB: 5/1/1990)" — the
name+action rule answers, appending the date of birth. -/
theorem priyaAge_amended (env : Session) (db : DB) (p : Patient)
    (herr : db.errPatients = false)
    (hfilter : db.patients.filter (ilikeName "Priya") = [p])
    (hname : p.full_name = "Priya Sharma")
    (hdob : p.date_of_birth = some ⟨1990, 5, 1⟩) :
    handleLocalQuery env db "Priya age" =
      some ("Priya Sharma" ++ " — Age: " ++
        toString ((env.currentYear : Int) - (1990 : Int)) ++
        " (DOB: " ++ "5/1/1990" ++ ")") := by
  rw [handleLocalQuery_priyaAge env db]
  unfold nameActionCore
  rw [show selPatientsByName db "Priya" 10 =
      .ok ((db.patients.filter (ilikeName "Priya")).take 10) from by
    unfold selPatientsByName
    rw [herr]
    simp]
  rw [hfilter]
  simp only [List.take]
  unfold nameActionSingle
  rw [show containsAnySub "age" ["age", "how old"] = true from rfl]
  rw [if_pos rfl, hname, hdob]
  rfl

/-! ### C4: the "cardiology patient details" scenario -/

/-- C4 counterexample: with three cardiology patients stored, the message
"cardiology patient details" never reaches the department-listing rule: the
higher-priority name+action rule parses it as name "cardiology patient" with
action "details", finds no such patient, and answers with a not-found
message that lists none of the three stored patients. -/
theorem cardiologyDetails_counterexample :
    handleLocalQuery egEnvAnon egDb3 "cardiology patient details" =
      some "No patients found matching \"cardiology patient\"." ∧
    (egDb3.patients.filter (fun p => p.department == "cardiology")).length = 3 ∧
    strContains "No patients found matching \"cardiology patient\"."
      "Asha Rao" = false ∧
    strContains "No patients found matching \"cardiology patient\"."
      "Priya Sharma" = false := by
  refine ⟨rfl, rfl, ?_, ?_⟩ <;> decide

/-- The message "cardiology patients" does reach the department rule. -/
theorem handleLocalQuery_cardiologyPatients (env : Session) (db : DB) :
    handleLocalQuery env db "cardiology patients" = deptCore db "cardiology" := by
  rfl

/-- C4 amended: for the input "cardiology patients" (a phrasing the
name+action rule does not intercept) with exactly 3 patients stored in the
cardiology department, the response lists exactly those 3 patients — each
line carrying name, status and admission date — ordered most recently
created first. -/
theorem cardiologyPatients_amended (env : Session) (db : DB)
    (herr : db.errPatients = false)
    (h3 : (db.patients.filter (fun p => p.department == "cardiology")).length = 3) :
    handleLocalQuery env db "cardiology patients" =
      some ("Patients in cardiology (showing up to 10):\n" ++
        strJoin "\n"
          ((sortDescBy Patient.created_at
            (db.patients.filter (fun p => p.department == "cardiology"))).map deptLine)) ∧
    (sortDescBy Patient.created_at
      (db.patients.filter (fun p => p.department == "cardiology"))).length = 3 ∧
    (sortDescBy Patient.created_at
      (db.patients.filter (fun p => p.department == "cardiology"))).Perm
      (db.patients.filter (fun p => p.department == "cardiology")) ∧
    (sortDescBy Patient.created_at
      (db.patients.filter (fun p => p.department == "cardiology"))).Pairwise
      (fun a b => b.created_at ≤ a.created_at) ∧
    ∀ p ∈ sortDescBy Patient.created_at
        (db.patients.filter (fun p => p.department == "cardiology")),
      strContains ("Patients in cardiology (showing up to 10):\n" ++
        strJoin "\n"
          ((sortDescBy Patient.created_at
            (db.patients.filter (fun q => q.department == "cardiology"))).map deptLine))
        p.full_name = true := by
  have hlen : (sortDescBy Patient.created_at
      (db.patients.filter (fun p => p.department == "cardiology"))).length = 3 := by
    rw [sortDescBy_length]
    exact h3
  refine ⟨?_, hlen, sortDescBy_perm _ _, sortDescBy_pairwise _ _, ?_⟩
  · rw [handleLocalQuery_cardiologyPatients env db]
    unfold deptCore
    rw [show selPatientsByDept db "cardiology" =
        .ok (sortDescBy Patient.created_at
          (db.patients.filter (fun p => p.department == "cardiology"))) from by
      unfold selPatientsByDept
      rw [herr]
      simp only [Bool.false_eq_true, if_false]
      rw [List.take_of_length_le (by rw [hlen]; norm_num)]]
    cases hs : sortDescBy Patient.created_at
        (db.patients.filter (fun p => p.department == "cardiology")) with
    | nil => rw [hs] at hlen; simp at hlen
    | cons a rest => simp
  · intro p hp
    exact contains_name_in_listing (fun q => rfl) hp

/-! ### C3: disambiguation on ambiguous name matches -/

/-- A limited name search returns at most `lim` rows. -/
theorem selPatientsByName_length_le (db : DB) (name : String) (lim : Nat)
    (rows : List Patient) (h : selPatientsByName db name lim = .ok rows) :
    rows.length ≤ lim := by
  unfold selPatientsByName at h
  cases he : db.errPatients with
  | true => rw [he] at h; simp at h
  | false =>
    rw [he] at h
    simp only [Bool.false_eq_true, if_false, Except.ok.injEq] at h
    rw [← h, List.length_take]
    exact min_le_left _ _

/-- C3 counterexample: the PII rule's name search with two matching rows
silently answers with the first row's contact data instead of a
disambiguation list (the second candidate is never mentioned). -/
theorem pii_first_row_counterexample :
    (selPatientsByName egDb2 "priya" 10).toOption.map List.length = some 2 ∧
    extractPIIName (normMsg "find priya phone") = some "priya" ∧
    handleLocalQuery egEnvAuth egDb2 "find priya phone" =
      some "Contact details for Priya Sharma:\nPhone: 555-1234" ∧
    strContains "Contact details for Priya Sharma:\nPhone: 555-1234"
      "Priya Patel" = false := by
  refine ⟨rfl, rfl, rfl, by decide⟩

/-- C3 amended: for the name+action and name+age rules, a name search
returning two or more rows always yields a bounded disambiguation list —
the query limit caps it at 10 rows and every returned candidate is listed —
never data for a single silently chosen record; the PII rule, by contrast,
uses the first returned row (see the counterexample), and the full-details
rule caps its search at one row. -/
theorem name_disambiguation (env : Session) (db : DB) (msg : String)
    (h1 : piiTest (normMsg msg) = false)
    (h2 : diseaseSubstrHit (normMsg msg) = none)
    (h3 : countTest (normMsg msg) = false)
    (h4 : detailsNameMatch msg = none) :
    (∀ rawName action rows,
      nameActionMatch msg = some (rawName, action) →
      selPatientsByName db (strTrim rawName) 10 = .ok rows →
      2 ≤ rows.length →
      handleLocalQuery env db msg =
        some ("Multiple patients found matching \"" ++ strTrim rawName ++ "\":\n" ++
          strJoin "\n" (rows.map (multiPatientLine env.currentYear)) ++
          "\n\nPlease repeat with the full name or select the patient in the UI for detailed info.") ∧
      rows.length ≤ 10 ∧
      ∀ p ∈ rows,
        strContains ("Multiple patients found matching \"" ++ strTrim rawName ++ "\":\n" ++
          strJoin "\n" (rows.map (multiPatientLine env.currentYear)) ++
          "\n\nPlease repeat with the full name or select the patient in the UI for detailed info.")
          p.full_name = true) ∧
    (∀ rawName rows,
      nameActionMatch msg = none →
      ((deptMatch (normMsg msg)).isSome && deptListTest (normMsg msg)) = false →
      (env.selectedPatientId.isSome && singleFieldTest (normMsg msg)) = false →
      teachCapture msg = none →
      nameAgeMatch msg = some rawName →
      selPatientsByName db (strTrim rawName) 10 = .ok rows →
      2 ≤ rows.length →
      handleLocalQuery env db msg =
        some ("Multiple patients found matching \"" ++ strTrim rawName ++ "\":\n" ++
          strJoin "\n" (rows.map (ageLine env.currentYear))) ∧
      rows.length ≤ 10 ∧
      ∀ p ∈ rows,
        strContains ("Multiple patients found matching \"" ++ strTrim rawName ++ "\":\n" ++
          strJoin "\n" (rows.map (ageLine env.currentYear))) p.full_name = true) := by
  have hroute : handleLocalQuery env db msg = localQuery5 env db msg (normMsg msg) := by
    unfold handleLocalQuery localQuery1 localQuery2 localQuery3 localQuery4
    simp [h1, h2, h3, h4]
  constructor
  · intro rawName action rows hna hsearch hlen
    have hresp : handleLocalQuery env db msg =
        nameActionCore env db (strTrim rawName) action := by
      rw [hroute]
      unfold localQuery5
      rw [hna]
    refine ⟨?_, selPatientsByName_length_le db _ 10 rows hsearch, ?_⟩
    · rw [hresp]
      unfold nameActionCore
      rw [hsearch]
      match rows, hlen with
      | a :: b :: rest, _ => simp
    · intro p hp
      exact contains_name_in_listing_trailer (fun q => rfl) hp
  · intro rawName rows hna hdept h7 h8 hage hsearch hlen
    have hresp : handleLocalQuery env db msg =
        nameAgeCore env db (strTrim rawName) := by
      rw [hroute]
      unfold localQuery5
      rw [hna]
      unfold localQuery6
      cases hd : deptMatch (normMsg msg) with
      | none =>
        unfold localQuery7
        rw [h7]
        simp only [Bool.false_eq_true, if_false]
        unfold localQuery8
        rw [h8]
        unfold localQuery9
        rw [hage]
      | some dept =>
        rw [hd] at hdept
        simp only [Option.isSome_some, Bool.true_and] at hdept
        rw [hdept]
        simp only [Bool.false_eq_true, if_false]
        unfold localQuery7
        rw [h7]
        simp only [Bool.false_eq_true, if_false]
        unfold localQuery8
        rw [h8]
        unfold localQuery9
        rw [hage]
    refine ⟨?_, selPatientsByName_length_le db _ 10 rows hsearch, ?_⟩
    · rw [hresp]
      unfold nameAgeCore
      rw [hsearch]
      match rows, hlen with
      | a :: b :: rest, _ => simp
    · intro p hp
      exact contains_name_in_listing (fun q => rfl) hp

/-! ### Witnesses: the claim theorems applied at concrete inputs -/

/-- A concrete context snapshot. -/
def egCtx : Context :=
  { patient :=
      { name := "Priya Sharma", age := 35, gender := some "female",
        blood_type := some "O+", department := "cardiology",
        status := some "admitted", admission_date := some ⟨2025, 1, 2⟩ }
    medical_summary :=
      { total_records := 1, latest_diagnosis := "heart failure",
        current_medications := "aspirin", allergies := "None" }
    surgeries := []
    recovery_status :=
      { days_post_operation := 0, total_post_op_notes := 0,
        latest_vital_signs := emptyVitals, latest_pain_level := "Not recorded",
        mobility_status := "Not recorded", wound_condition := "Not recorded",
        complications := "None" }
    milestones :=
      { total := 0, achieved := 0, progress_percentage := 0,
        recent_milestones := [] } }

theorem sendMessageToGemini_fallback_witness :
    sendMessageToGemini .throws "hello" (some egCtx) =
      synthesizePatientSummary egCtx "hello" ∧
    strContains (sendMessageToGemini .throws "hello" (some egCtx))
      "Priya Sharma" = true ∧
    strContains (sendMessageToGemini .throws "hello" (some egCtx))
      "heart failure" = true ∧
    sendMessageToGemini .throws "hello" none = FALLBACK_RESPONSE :=
  have h := sendMessageToGemini_fallback .throws "hello" rfl
  ⟨(h.1 egCtx).1, (h.1 egCtx).2.1, (h.1 egCtx).2.2, h.2⟩

theorem name_disambiguation_witness :
    handleLocalQuery egEnvAnon egDb2 "priya details" =
      some ("Multiple patients found matching \"" ++ strTrim "priya" ++ "\":\n" ++
        strJoin "\n" ([egPriya, egPriya2].map (multiPatientLine 2025)) ++
        "\n\nPlease repeat with the full name or select the patient in the UI for detailed info.") ∧
    ([egPriya, egPriya2] : List Patient).length ≤ 10 :=
  have h := (name_disambiguation egEnvAnon egDb2 "priya details" rfl rfl rfl rfl).1
    "priya" "details" [egPriya, egPriya2] rfl rfl (by decide)
  ⟨h.1, h.2.1⟩

theorem cardiologyPatients_amended_witness :
    handleLocalQuery egEnvAnon egDb3 "cardiology patients" =
      some ("Patients in cardiology (showing up to 10):\n" ++
        strJoin "\n" ((sortDescBy Patient.created_at
          (egDb3.patients.filter (fun p => p.department == "cardiology"))).map deptLine)) ∧
    (sortDescBy Patient.created_at
      (egDb3.patients.filter (fun p => p.department == "cardiology"))).length = 3 :=
  have h := cardiologyPatients_amended egEnvAnon egDb3 rfl rfl
  ⟨h.1, h.2.1⟩

theorem priyaAge_amended_witness :
    handleLocalQuery egEnvAnon egDb1 "Priya age" =
      some ("Priya Sharma" ++ " — Age: " ++ toString ((2025 : Int) - (1990 : Int)) ++
        " (DOB: " ++ "5/1/1990" ++ ")") :=
  priyaAge_amended egEnvAnon egDb1 egPriya rfl rfl rfl rfl

theorem pii_gating_witness :
    handleLocalQuery egEnvAnon egDb2 "priya phone" =
      some "I cannot provide personal contact details unless you are signed in with appropriate access." :=
  (pii_gating egEnvAnon egDb2 "priya phone" rfl).1 rfl

theorem painLevel_zero_witness :
    handleLocalQuery egEnvSel egDbNote "vitals" =
      some ("Latest post-op note (day " ++ toString egNoteZero.day_number ++ "):\n" ++
        strJoin "\n" (vitalsLines { egNoteZero with pain_level := none })) :=
  (painLevel_zero_not_recorded egEnvSel egDbNote "p1" egNoteZero [] egCtx rfl rfl).1
    (by rfl)

theorem handleSend_insert_witness :
    (handleSend egEnvSel egDb1 .throws "tell me something").inserts = [] ∧
    (handleSend egEnvSel egDb1 .throws "tell me something").displayed =
      [sendMessageToGemini .throws "tell me something" (getPatientContext egEnvSel egDb1),
       topLevelErrorText referenceErrorMessage] :=
  handleSend_insert_out_of_scope.2.2 egEnvSel egDb1 .throws "tell me something" "u1"
    rfl rfl rfl

end AIPMS
